import Mathlib

/-! # firecracker-containerd guest agent: task service

A shallow embedding of `agent/error.go` and `agent/service.go`.

Go values of type `error` are modelled by `Option GoError` (`none` is the nil
interface).  A Go call returning `(T, error)` is modelled by `Except GoError T`.
Handlers of the task service are modelled as functions returning the list of
effects they perform on their collaborators, in program order, together with
the value they return.
-/

namespace Agent

/-! ## Errors (`agent/error.go`) -/

namespace syscall

/-- The type `syscall.Errno` (a `uintptr`). -/
abbrev Errno := Nat

/-- The value of `syscall.ENOMEM` on Linux. -/
def ENOMEM : Errno := 12

/-- The value of `syscall.EINVAL` on Linux. -/
def EINVAL : Errno := 22

/-- The value of `syscall.EACCES` on Linux. -/
def EACCES : Errno := 13

/-- The value of `syscall.EBUSY` on Linux. -/
def EBUSY : Errno := 16

end syscall

/-- Dynamic values of the Go interface type `error` that the agent handles:
a bare `syscall.Errno`, the result of `errors.Wrap`, the result of
`fmt.Errorf` (format string and arguments kept unformatted), or any other
error value, identified by its message. -/
inductive GoError where
  | errno (code : syscall.Errno)
  | wrapped (cause : GoError) (message : String)
  | errorf (format : String) (args : List String)
  | other (message : String)
  deriving DecidableEq, Repr

/-- The type assertion `err.(syscall.Errno)`: the errno and `true` when the
dynamic type of `err` is `syscall.Errno`, the zero value and `false` otherwise
(also for the nil interface). -/
def assertErrno : Option GoError → syscall.Errno × Bool
  | some (GoError.errno code) => (code, true)
  | _ => (0, false)

/-- Source: `isRetryableMountError` (agent/error.go:22-25). -/
def isRetryableMountError (err : Option GoError) : Bool :=
  let (errno, ok) := assertErrno err
  ok && (errno == syscall.EINVAL || errno == syscall.ENOMEM)

/-- The function `errors.Wrap` of github.com/pkg/errors at a non-nil error
(every call in `service.go` is guarded by `err != nil`): an error that wraps
its argument under the message. -/
def errors.Wrap (err : GoError) (message : String) : GoError :=
  GoError.wrapped err message

/-! ## Library functions used by `Create` -/

/-- The predicate `unicode.IsSpace` of the Go standard library: the Latin-1
spaces and the code points of the Unicode property White_Space. -/
def unicode.IsSpace (r : Char) : Bool :=
  let n := r.toNat
  n == 0x09 || n == 0x0A || n == 0x0B || n == 0x0C || n == 0x0D || n == 0x20 ||
  n == 0x85 || n == 0xA0 || n == 0x1680 || (0x2000 ≤ n && n ≤ 0x200A) ||
  n == 0x2028 || n == 0x2029 || n == 0x202F || n == 0x205F || n == 0x3000

/-- The function `strings.TrimSpace`: the string without its leading and
trailing white space. -/
def strings.TrimSpace (s : String) : String :=
  String.mk ((s.data.dropWhile unicode.IsSpace).rdropWhile unicode.IsSpace)

/-- The elements of a slash-separated path: the text between consecutive
separators (an element is empty where two separators are adjacent, and at a
leading or trailing separator). -/
def filepath.elements : List Char → List (List Char)
  | [] => [[]]
  | c :: cs =>
    if c = '/' then [] :: filepath.elements cs
    else
      match filepath.elements cs with
      | [] => [[c]]
      | e :: es => (c :: e) :: es

/-- One element of `filepath.Clean`, on the elements kept so far (the last one
first): an empty element and `.` are dropped; `..` removes the last kept
element when there is one that is not itself `..`, is dropped at the root of a
rooted path, and is kept otherwise; any other element is kept. -/
def filepath.cleanStep (rooted : Bool) (out : List (List Char)) (e : List Char) :
    List (List Char) :=
  if e = [] ∨ e = ['.'] then out
  else if e = ['.', '.'] then
    match out with
    | [] => if rooted then [] else [e]
    | top :: rest => if top = ['.', '.'] then e :: out else rest
  else e :: out

/-- The function `filepath.Clean` of the Go standard library on Unix, by path
elements: the shortest equivalent path. -/
def filepath.Clean (path : String) : String :=
  if path = "" then "."
  else
    let rooted := path.data.head? = some '/'
    let kept := ((filepath.elements path.data).foldl (filepath.cleanStep rooted) []).reverse
    let body := String.mk (List.intercalate ['/'] kept)
    if rooted then "/" ++ body
    else if body = "" then "." else body

/-- The function `filepath.Join` of the Go standard library on Unix: the
elements from the first non-empty one on, joined by the separator and
cleaned; the empty string when all are empty. -/
def filepath.Join (elem : List String) : String :=
  match elem.dropWhile (fun e => e == "") with
  | [] => ""
  | rest => filepath.Clean (String.intercalate "/" rest)

/-! ## Data model -/

/-- The message `types.Any`: a type URL and the serialized bytes. -/
structure Any where
  TypeUrl : String
  Value : List Nat
  deriving DecidableEq, Repr

/-- The message `types.Mount` of the `Rootfs` of a request (`Type_` is its field `Type`). -/
structure Mount where
  Type_ : String
  Source : String
  Options : List String
  deriving DecidableEq, Repr

/-- The message `proto.ExtraData`, the metadata envelope carried in the
options of a Create request (the fields `Create` reads). -/
structure ExtraData where
  JsonSpec : List Nat
  RuncOptions : Option Any
  StdinPort : Nat
  StdoutPort : Nat
  StderrPort : Nat
  DriveID : String
  deriving DecidableEq, Repr

/-- The message `taskAPI.CreateTaskRequest`. -/
structure CreateTaskRequest where
  ID : String
  Bundle : String
  Rootfs : List Mount
  Terminal : Bool
  Stdin : String
  Stdout : String
  Stderr : String
  Checkpoint : String
  ParentCheckpoint : String
  Options : Option Any
  deriving DecidableEq, Repr

/-- The message `taskAPI.CreateTaskResponse`. -/
structure CreateTaskResponse where
  Pid : Nat
  deriving DecidableEq, Repr

/-- The paths of `cio.FIFOSet` that `Create` reads. -/
structure FIFOSet where
  Stdin : String
  Stdout : String
  Stderr : String
  deriving DecidableEq, Repr

/-- Modelled from the spec: `vm.IOConnector` (internal/vm is not under src/),
a data-transfer endpoint with two variants, named after the constructors
`Create` calls: `vm.VSockAcceptConnector(port)` awaits an inbound vsock
connection on the port, `vm.FIFOConnector(path)` opens the named pipe at the
path. -/
inductive IOConnector where
  | VSockAcceptConnector (port : Nat)
  | FIFOConnector (path : String)
  deriving DecidableEq, Repr

/-- The struct `vm.IOConnectorPair` as `Create` builds it: bytes are copied
from the read connector to the write connector. -/
structure IOConnectorPair where
  ReadConnector : IOConnector
  WriteConnector : IOConnector
  deriving DecidableEq, Repr

/-- Modelled from the spec: the value of `vm.NewIOConnectorProxy` (internal/vm
is not under src/), which owns up to three directional stream pairs; a nil
pointer argument is an absent pair. -/
structure IOConnectorProxy where
  stdin : Option IOConnectorPair
  stdout : Option IOConnectorPair
  stderr : Option IOConnectorPair
  deriving DecidableEq, Repr

/-- The constructor `vm.NewIOConnectorProxy(stdin, stdout, stderr)`. -/
def vm.NewIOConnectorProxy (stdin stdout stderr : Option IOConnectorPair) : IOConnectorProxy :=
  { stdin := stdin, stdout := stdout, stderr := stderr }

/-- Source: `containerRootDir` (agent/service.go:38-40). -/
def containerRootDir : String := "/container"

/-- Modelled from the spec: the type `bundle.Dir` (internal/bundle is not
under src/), the path of a bundle directory. -/
structure bundle.Dir where
  path : String
  deriving DecidableEq, Repr

/-- Modelled from the spec: `bundle.Dir.RootPath` (internal/bundle is not under
src/), the path of the bundle directory itself. -/
def bundle.Dir.RootPath (d : bundle.Dir) : String := d.path

/-- Source: `TaskService.Create` (agent/service.go:131), the bundle directory
of a task: `bundle.Dir(filepath.Join(containerRootDir, req.ID))`. -/
def bundleDirFor (id : String) : bundle.Dir :=
  { path := filepath.Join [containerRootDir, id] }

/-- A drive registered in the drive handler, with the device path that
`drive.Path()` returns. -/
structure Drive where
  Path : String
  deriving DecidableEq, Repr

/-! ## Messages of the task API (the fields the handlers read, and a few
of the others) -/

/-- The message `types.Empty`. -/
structure Empty where
  deriving DecidableEq, Repr

/-- The message `taskAPI.StateRequest`. -/
structure StateRequest where
  ID : String
  ExecID : String
  deriving DecidableEq, Repr

/-- The message `taskAPI.StateResponse`. -/
structure StateResponse where
  ID : String
  Bundle : String
  Pid : Nat
  Status : Nat
  deriving DecidableEq, Repr

/-- The message `taskAPI.StartRequest`. -/
structure StartRequest where
  ID : String
  ExecID : String
  deriving DecidableEq, Repr

/-- The message `taskAPI.StartResponse`. -/
structure StartResponse where
  Pid : Nat
  deriving DecidableEq, Repr

/-- The message `taskAPI.DeleteRequest`. -/
structure DeleteRequest where
  ID : String
  ExecID : String
  deriving DecidableEq, Repr

/-- The message `taskAPI.DeleteResponse`. -/
structure DeleteResponse where
  Pid : Nat
  ExitStatus : Nat
  deriving DecidableEq, Repr

/-- The message `taskAPI.PidsRequest`. -/
structure PidsRequest where
  ID : String
  deriving DecidableEq, Repr

/-- The message `taskAPI.PidsResponse`. -/
structure PidsResponse where
  Processes : List Nat
  deriving DecidableEq, Repr

/-- The message `taskAPI.PauseRequest`. -/
structure PauseRequest where
  ID : String
  deriving DecidableEq, Repr

/-- The message `taskAPI.ResumeRequest`. -/
structure ResumeRequest where
  ID : String
  deriving DecidableEq, Repr

/-- The message `taskAPI.CheckpointTaskRequest`. -/
structure CheckpointTaskRequest where
  ID : String
  Path : String
  Options : Option Any
  deriving DecidableEq, Repr

/-- The message `taskAPI.KillRequest`. -/
structure KillRequest where
  ID : String
  ExecID : String
  Signal : Nat
  All : Bool
  deriving DecidableEq, Repr

/-- The message `taskAPI.ExecProcessRequest`. -/
structure ExecProcessRequest where
  ID : String
  ExecID : String
  Terminal : Bool
  Stdin : String
  Stdout : String
  Stderr : String
  Spec : Option Any
  deriving DecidableEq, Repr

/-- The message `taskAPI.ResizePtyRequest`. -/
structure ResizePtyRequest where
  ID : String
  ExecID : String
  Width : Nat
  Height : Nat
  deriving DecidableEq, Repr

/-- The message `taskAPI.CloseIORequest`. -/
structure CloseIORequest where
  ID : String
  ExecID : String
  Stdin : Bool
  deriving DecidableEq, Repr

/-- The message `taskAPI.UpdateTaskRequest`. -/
structure UpdateTaskRequest where
  ID : String
  Resources : Option Any
  deriving DecidableEq, Repr

/-- The message `taskAPI.WaitRequest`. -/
structure WaitRequest where
  ID : String
  ExecID : String
  deriving DecidableEq, Repr

/-- The message `taskAPI.WaitResponse`. -/
structure WaitResponse where
  ExitStatus : Nat
  deriving DecidableEq, Repr

/-- The message `taskAPI.StatsRequest`. -/
structure StatsRequest where
  ID : String
  deriving DecidableEq, Repr

/-- The message `taskAPI.StatsResponse`. -/
structure StatsResponse where
  Stats : Option Any
  deriving DecidableEq, Repr

/-- The message `taskAPI.ConnectRequest`. -/
structure ConnectRequest where
  ID : String
  deriving DecidableEq, Repr

/-- The message `taskAPI.ConnectResponse`. -/
structure ConnectResponse where
  ShimPid : Nat
  TaskPid : Nat
  Version : String
  deriving DecidableEq, Repr

/-- The message `taskAPI.ShutdownRequest`. -/
structure ShutdownRequest where
  ID : String
  Now : Bool
  deriving DecidableEq, Repr

/-! ## Collaborators -/

/-- The operations of the interface `taskAPI.TaskService` that the handlers may
forward to, as implemented by the embedded runc shim (`ts.runcService`): the
result of each call. -/
structure taskAPI.TaskService where
  State : StateRequest → Except GoError StateResponse
  Start : StartRequest → Except GoError StartResponse
  Pids : PidsRequest → Except GoError PidsResponse
  Pause : PauseRequest → Except GoError Empty
  Resume : ResumeRequest → Except GoError Empty
  Checkpoint : CheckpointTaskRequest → Except GoError Empty
  Kill : KillRequest → Except GoError Empty
  Exec : ExecProcessRequest → Except GoError Empty
  ResizePty : ResizePtyRequest → Except GoError Empty
  CloseIO : CloseIORequest → Except GoError Empty
  Update : UpdateTaskRequest → Except GoError Empty
  Wait : WaitRequest → Except GoError WaitResponse
  Stats : StatsRequest → Except GoError StatsResponse
  Connect : ConnectRequest → Except GoError ConnectResponse
  Shutdown : ShutdownRequest → Except GoError Empty

/-- The interface `vm.TaskManager` (`ts.taskManager`): the result of each call. -/
structure vm.TaskManager where
  CreateTask : CreateTaskRequest → taskAPI.TaskService → IOConnectorProxy →
    Except GoError CreateTaskResponse
  DeleteTask : DeleteRequest → taskAPI.TaskService → Except GoError DeleteResponse

/-- The drive handler (`ts.driveHandler`): `GetDrive` returns the drive
registered under an id and whether there is one. -/
structure driveHandler where
  GetDrive : String → Drive × Bool

/-- Source: `TaskService` (agent/service.go:46-69), the collaborators the
handlers call. The cancel function `shimCancel` has no result; calling it is
the effect `Effect.shimCancel`. -/
structure TaskService where
  taskManager : vm.TaskManager
  runcService : taskAPI.TaskService
  driveHandler : driveHandler

/-- The operating system and libraries under `Create`: the result of each
call. `UnmarshalAny` gives the message as filled in and the error of
`types.UnmarshalAny`; `bundleCreate` is `bundle.Dir.Create`, `ociConfigWrite`
is `bundle.Dir.OCIConfig().Write`, `MountRootfs` is `bundle.Dir.MountRootfs`,
`NewFIFOSetInDir` is `cio.NewFIFOSetInDir` and `RemoveAll` is `os.RemoveAll`. -/
structure System where
  UnmarshalAny : Option Any → ExtraData × Option GoError
  bundleCreate : bundle.Dir → Option GoError
  ociConfigWrite : bundle.Dir → List Nat → Option GoError
  MountRootfs : bundle.Dir → String → String → List String → Option GoError
  NewFIFOSetInDir : String → String → Bool → Except GoError FIFOSet
  RemoveAll : String → Option GoError

/-! ## Effects -/

/-- The level of a log entry. -/
inductive Level where
  | Debug
  | Info
  | Error
  deriving DecidableEq, Repr

/-- A call on the embedded runc shim, with the request passed. -/
inductive RuncCall where
  | State (req : StateRequest)
  | Start (req : StartRequest)
  | Pids (req : PidsRequest)
  | Pause (req : PauseRequest)
  | Resume (req : ResumeRequest)
  | Checkpoint (req : CheckpointTaskRequest)
  | Kill (req : KillRequest)
  | Exec (req : ExecProcessRequest)
  | ResizePty (req : ResizePtyRequest)
  | CloseIO (req : CloseIORequest)
  | Update (req : UpdateTaskRequest)
  | Wait (req : WaitRequest)
  | Stats (req : StatsRequest)
  | Connect (req : ConnectRequest)
  | Shutdown (req : ShutdownRequest)
  deriving DecidableEq, Repr

/-- The effects of a handler on its collaborators, one per call, with the
arguments passed (and, for a mount and a removal, the error returned).
`unmount` is an unmount of the rootfs of a bundle directory; it is there to
state properties of traces, no handler of `service.go` performs one. -/
inductive Effect where
  | log (level : Level) (message : String)
  | bundleCreate (dir : bundle.Dir)
  | ociConfigWrite (dir : bundle.Dir) (spec : List Nat)
  | GetDrive (driveID : String)
  | MountRootfs (dir : bundle.Dir) (source : String) (fstype : String)
      (options : List String) (err : Option GoError)
  | unmount (dir : bundle.Dir)
  | NewFIFOSetInDir (root : String) (id : String) (terminal : Bool)
  | CreateTask (req : CreateTaskRequest) (ioConnectorSet : IOConnectorProxy)
  | DeleteTask (req : DeleteRequest)
  | RemoveAll (path : String) (err : Option GoError)
  | runc (call : RuncCall)
  | shimCancel
  deriving DecidableEq, Repr

/-! ## `Create` (agent/service.go:104-207) -/

/-- Source: `unmarshalExtraData` (agent/service.go:104-113). -/
def unmarshalExtraData (sys : System) (marshalled : Option Any) : Except GoError ExtraData :=
  match sys.UnmarshalAny marshalled with
  | (_, some err) => Except.error err
  | (extraData, none) => Except.ok extraData

/-- The execution of the body of `Create` up to and including the evaluation of
a return statement: the effects performed in program order, the local variable
`err` at that point, whether the `defer` statement of line 137 has been
executed (and then for which bundle directory), and the operands of the return
statement. -/
structure CreateExit where
  effects : List Effect
  err : Option GoError
  cleanupDeferred : Option bundle.Dir
  result : Except GoError CreateTaskResponse

/-- Source: `TaskService.Create` (agent/service.go:172-197), the connector pair
of each stream and the request with the paths of the requested streams
replaced by the local FIFOs. -/
def wireStreams (req : CreateTaskRequest) (extraData : ExtraData) (fifoSet : FIFOSet) :
    CreateTaskRequest × IOConnectorProxy :=
  let (req, stdinConnectorPair) :=
    if req.Stdin ≠ "" then
      ({ req with Stdin := fifoSet.Stdin },
        some { ReadConnector := IOConnector.VSockAcceptConnector extraData.StdinPort,
               WriteConnector := IOConnector.FIFOConnector fifoSet.Stdin })
    else (req, none)
  let (req, stdoutConnectorPair) :=
    if req.Stdout ≠ "" then
      ({ req with Stdout := fifoSet.Stdout },
        some { ReadConnector := IOConnector.FIFOConnector fifoSet.Stdout,
               WriteConnector := IOConnector.VSockAcceptConnector extraData.StdoutPort })
    else (req, none)
  let (req, stderrConnectorPair) :=
    if req.Stderr ≠ "" then
      ({ req with Stderr := fifoSet.Stderr },
        some { ReadConnector := IOConnector.FIFOConnector fifoSet.Stderr,
               WriteConnector := IOConnector.VSockAcceptConnector extraData.StderrPort })
    else (req, none)
  (req, vm.NewIOConnectorProxy stdinConnectorPair stdoutConnectorPair stderrConnectorPair)

/-- Source: `TaskService.Create` (agent/service.go:116-207), the statements of
the body up to a return statement. -/
def TaskService.createBody (ts : TaskService) (sys : System) (req : CreateTaskRequest) :
    CreateExit :=
  let t0 := [Effect.log Level.Info "create"]
  match unmarshalExtraData sys req.Options with
  | Except.error err =>
    { effects := t0, err := some err, cleanupDeferred := none,
      result := Except.error (errors.Wrap err "failed to unmarshal extra data") }
  | Except.ok extraData =>
    let req := { req with Options := extraData.RuncOptions }
    let bundleDir := bundleDirFor req.ID
    let t1 := t0 ++ [Effect.bundleCreate bundleDir]
    match sys.bundleCreate bundleDir with
    | some err =>
      { effects := t1, err := some err, cleanupDeferred := none,
        result := Except.error (errors.Wrap err "failed to create bundle dir") }
    | none =>
      let t2 := t1 ++ [Effect.ociConfigWrite bundleDir extraData.JsonSpec]
      match sys.ociConfigWrite bundleDir extraData.JsonSpec with
      | some err =>
        { effects := t2, err := some err, cleanupDeferred := some bundleDir,
          result := Except.error (errors.Wrap err "failed to write oci config file") }
      | none =>
        let driveID := strings.TrimSpace extraData.DriveID
        let (drive, ok) := ts.driveHandler.GetDrive driveID
        let t3 := t2 ++ [Effect.GetDrive driveID]
        if !ok then
          { effects := t3, err := none, cleanupDeferred := some bundleDir,
            result := Except.error (GoError.errorf "Drive %q could not be found" [driveID]) }
        else
          let mountErr := sys.MountRootfs bundleDir drive.Path "ext4" []
          let t4 := t3 ++ [Effect.MountRootfs bundleDir drive.Path "ext4" [] mountErr]
          match mountErr with
          | some err =>
            { effects := t4, err := some err, cleanupDeferred := some bundleDir,
              result := Except.error err }
          | none =>
            let req := { req with Bundle := bundleDir.RootPath, Rootfs := [] }
            let t5 := t4 ++ [Effect.NewFIFOSetInDir bundleDir.RootPath req.ID req.Terminal]
            match sys.NewFIFOSetInDir bundleDir.RootPath req.ID req.Terminal with
            | Except.error err =>
              { effects := t5 ++ [Effect.log Level.Error "failed opening stdio FIFOs"],
                err := some err, cleanupDeferred := some bundleDir,
                result := Except.error (errors.Wrap err "failed to open stdio FIFOs") }
            | Except.ok fifoSet =>
              let (req, ioConnectorSet) := wireStreams req extraData fifoSet
              let t6 := t5 ++ [Effect.CreateTask req ioConnectorSet]
              match ts.taskManager.CreateTask req ts.runcService ioConnectorSet with
              | Except.error err =>
                { effects := t6, err := some err, cleanupDeferred := some bundleDir,
                  result := Except.error (errors.Wrap err "failed to create runc shim for task") }
              | Except.ok resp =>
                { effects := t6 ++ [Effect.log Level.Debug "create succeeded"],
                  err := none, cleanupDeferred := some bundleDir,
                  result := Except.ok resp }

/-- Source: `TaskService.Create` (agent/service.go:137-144), the deferred
function: when the local variable `err` is not nil as the function returns,
the bundle directory is removed, and a failure of the removal is logged. -/
def deferredCleanup (sys : System) (bundleDir : bundle.Dir) (err : Option GoError) :
    List Effect :=
  match err with
  | none => []
  | some _ =>
    let removeErr := sys.RemoveAll bundleDir.RootPath
    Effect.RemoveAll bundleDir.RootPath removeErr ::
      (match removeErr with
       | none => []
       | some _ => [Effect.log Level.Error "failed to cleanup bundle dir"])

/-- Source: `TaskService.Create` (agent/service.go:116-207): the body, then the
deferred function when it was registered. (The deferred `logPanicAndDie` does
nothing when the body does not panic.) -/
def TaskService.Create (ts : TaskService) (sys : System) (req : CreateTaskRequest) :
    List Effect × Except GoError CreateTaskResponse :=
  let exit := ts.createBody sys req
  match exit.cleanupDeferred with
  | none => (exit.effects, exit.result)
  | some bundleDir => (exit.effects ++ deferredCleanup sys bundleDir exit.err, exit.result)

/-! ## The handlers that forward to the embedded runc shim (agent/service.go:209-443) -/

/-- Source: `TaskService.State` (agent/service.go:210-227). -/
def TaskService.State (ts : TaskService) (req : StateRequest) :
    List Effect × Except GoError StateResponse :=
  let t0 := [Effect.log Level.Debug "state", Effect.runc ( RuncCall.State req)]
  match ts.runcService.State req with
  | Except.error err => (t0 ++ [Effect.log Level.Error "state failed"], Except.error err)
  | Except.ok resp => (t0 ++ [Effect.log Level.Debug "state succeeded"], Except.ok resp)

/-- Source: `TaskService.Start` (agent/service.go:230-242). -/
def TaskService.Start (ts : TaskService) (req : StartRequest) :
    List Effect × Except GoError StartResponse :=
  let t0 := [Effect.log Level.Debug "start", Effect.runc ( RuncCall.Start req)]
  match ts.runcService.Start req with
  | Except.error err => (t0 ++ [Effect.log Level.Error "start failed"], Except.error err)
  | Except.ok resp => (t0 ++ [Effect.log Level.Debug "start succeeded"], Except.ok resp)

/-- Source: `TaskService.Pids` (agent/service.go:262-274). -/
def TaskService.Pids (ts : TaskService) (req : PidsRequest) :
    List Effect × Except GoError PidsResponse :=
  let t0 := [Effect.log Level.Debug "pids", Effect.runc ( RuncCall.Pids req)]
  match ts.runcService.Pids req with
  | Except.error err => (t0 ++ [Effect.log Level.Error "pids failed"], Except.error err)
  | Except.ok resp => (t0 ++ [Effect.log Level.Debug "pids succeeded"], Except.ok resp)

/-- Source: `TaskService.Pause` (agent/service.go:277-289). -/
def TaskService.Pause (ts : TaskService) (req : PauseRequest) :
    List Effect × Except GoError Empty :=
  let t0 := [Effect.log Level.Debug "pause", Effect.runc ( RuncCall.Pause req)]
  match ts.runcService.Pause req with
  | Except.error err => (t0 ++ [Effect.log Level.Error "pause failed"], Except.error err)
  | Except.ok resp => (t0 ++ [Effect.log Level.Debug "pause succeeded"], Except.ok resp)

/-- Source: `TaskService.Resume` (agent/service.go:292-304). -/
def TaskService.Resume (ts : TaskService) (req : ResumeRequest) :
    List Effect × Except GoError Empty :=
  let t0 := [Effect.log Level.Debug "resume", Effect.runc ( RuncCall.Resume req)]
  match ts.runcService.Resume req with
  | Except.error err => (t0 ++ [Effect.log Level.Debug "resume failed"], Except.error err)
  | Except.ok resp => (t0 ++ [Effect.log Level.Debug "resume succeeded"], Except.ok resp)

/-- Source: `TaskService.Checkpoint` (agent/service.go:307-319). -/
def TaskService.Checkpoint (ts : TaskService) (req : CheckpointTaskRequest) :
    List Effect × Except GoError Empty :=
  let t0 := [Effect.log Level.Info "checkpoint", Effect.runc ( RuncCall.Checkpoint req)]
  match ts.runcService.Checkpoint req with
  | Except.error err => (t0 ++ [Effect.log Level.Error "checkout failed"], Except.error err)
  | Except.ok resp => (t0 ++ [Effect.log Level.Debug "checkpoint sutaskAPI"], Except.ok resp)

/-- Source: `TaskService.Kill` (agent/service.go:322-334). -/
def TaskService.Kill (ts : TaskService) (req : KillRequest) :
    List Effect × Except GoError Empty :=
  let t0 := [Effect.log Level.Debug "kill", Effect.runc ( RuncCall.Kill req)]
  match ts.runcService.Kill req with
  | Except.error err => (t0 ++ [Effect.log Level.Error "kill failed"], Except.error err)
  | Except.ok resp => (t0 ++ [Effect.log Level.Debug "kill succeeded"], Except.ok resp)

/-- Source: `TaskService.Exec` (agent/service.go:337-349). -/
def TaskService.Exec (ts : TaskService) (req : ExecProcessRequest) :
    List Effect × Except GoError Empty :=
  let t0 := [Effect.log Level.Debug "exec", Effect.runc ( RuncCall.Exec req)]
  match ts.runcService.Exec req with
  | Except.error err => (t0 ++ [Effect.log Level.Error "exec failed"], Except.error err)
  | Except.ok resp => (t0 ++ [Effect.log Level.Debug "exec succeeded"], Except.ok resp)

/-- Source: `TaskService.ResizePty` (agent/service.go:352-364). -/
def TaskService.ResizePty (ts : TaskService) (req : ResizePtyRequest) :
    List Effect × Except GoError Empty :=
  let t0 := [Effect.log Level.Debug "resize_pty", Effect.runc ( RuncCall.ResizePty req)]
  match ts.runcService.ResizePty req with
  | Except.error err => (t0 ++ [Effect.log Level.Error "resize_pty failed"], Except.error err)
  | Except.ok resp => (t0 ++ [Effect.log Level.Debug "resize_pty succeeded"], Except.ok resp)

/-- Source: `TaskService.CloseIO` (agent/service.go:367-379). -/
def TaskService.CloseIO (ts : TaskService) (req : CloseIORequest) :
    List Effect × Except GoError Empty :=
  let t0 := [Effect.log Level.Debug "close_io", Effect.runc ( RuncCall.CloseIO req)]
  match ts.runcService.CloseIO req with
  | Except.error err => (t0 ++ [Effect.log Level.Error "close io failed"], Except.error err)
  | Except.ok resp => (t0 ++ [Effect.log Level.Debug "close io succeeded"], Except.ok resp)

/-- Source: `TaskService.Update` (agent/service.go:382-394). -/
def TaskService.Update (ts : TaskService) (req : UpdateTaskRequest) :
    List Effect × Except GoError Empty :=
  let t0 := [Effect.log Level.Debug "update", Effect.runc ( RuncCall.Update req)]
  match ts.runcService.Update req with
  | Except.error err => (t0 ++ [Effect.log Level.Error "update failed"], Except.error err)
  | Except.ok resp => (t0 ++ [Effect.log Level.Debug "update succeeded"], Except.ok resp)

/-- Source: `TaskService.Wait` (agent/service.go:397-409). -/
def TaskService.Wait (ts : TaskService) (req : WaitRequest) :
    List Effect × Except GoError WaitResponse :=
  let t0 := [Effect.log Level.Debug "wait", Effect.runc ( RuncCall.Wait req)]
  match ts.runcService.Wait req with
  | Except.error err => (t0 ++ [Effect.log Level.Error "wait failed"], Except.error err)
  | Except.ok resp => (t0 ++ [Effect.log Level.Debug "wait succeeded"], Except.ok resp)

/-- Source: `TaskService.Stats` (agent/service.go:412-424). -/
def TaskService.Stats (ts : TaskService) (req : StatsRequest) :
    List Effect × Except GoError StatsResponse :=
  let t0 := [Effect.log Level.Debug "stats", Effect.runc ( RuncCall.Stats req)]
  match ts.runcService.Stats req with
  | Except.error err => (t0 ++ [Effect.log Level.Error "stats failed"], Except.error err)
  | Except.ok resp => (t0 ++ [Effect.log Level.Debug "stats succeeded"], Except.ok resp)

/-- Source: `TaskService.Connect` (agent/service.go:427-443). -/
def TaskService.Connect (ts : TaskService) (req : ConnectRequest) :
    List Effect × Except GoError ConnectResponse :=
  let t0 := [Effect.log Level.Debug "connect", Effect.runc ( RuncCall.Connect req)]
  match ts.runcService.Connect req with
  | Except.error err => (t0 ++ [Effect.log Level.Error "connect failed"], Except.error err)
  | Except.ok resp => (t0 ++ [Effect.log Level.Error "connect succeeded"], Except.ok resp)

/-! ## `Delete` and `Shutdown` -/

/-- Source: `TaskService.Delete` (agent/service.go:245-259). -/
def TaskService.Delete (ts : TaskService) (req : DeleteRequest) :
    List Effect × Except GoError DeleteResponse :=
  let t0 := [Effect.log Level.Debug "delete", Effect.DeleteTask req]
  match ts.taskManager.DeleteTask req ts.runcService with
  | Except.error err => (t0, Except.error err)
  | Except.ok resp => (t0 ++ [Effect.log Level.Debug "delete succeeded"], Except.ok resp)

/-- The execution of the body of `Shutdown` up to and including the evaluation
of its return statement: the effects performed in program order, the effects of
the deferred calls in the order of their `defer` statements, and the operands
of the return statement. -/
structure ShutdownExit where
  effects : List Effect
  deferred : List Effect
  result : Except GoError Empty

/-- Source: `TaskService.Shutdown` (agent/service.go:446-456), the statements
of the body. -/
def TaskService.shutdownBody (_ts : TaskService) (_req : ShutdownRequest) : ShutdownExit :=
  { effects := [Effect.log Level.Debug "shutdown",
                Effect.log Level.Debug "going to gracefully shutdown agent"],
    deferred := [Effect.shimCancel],
    result := Except.ok {} }

/-- Source: `TaskService.Shutdown` (agent/service.go:446-456): the body, then
the deferred calls, the last deferred first. (The deferred `logPanicAndDie`
does nothing when the body does not panic.) -/
def TaskService.Shutdown (ts : TaskService) (req : ShutdownRequest) :
    List Effect × Except GoError Empty :=
  let exit := ts.shutdownBody req
  (exit.effects ++ exit.deferred.reverse, exit.result)

/-! ## Observations on traces -/

/-- Whether an effect is a log entry. -/
def Effect.isLog : Effect → Bool
  | Effect.log _ _ => true
  | _ => false

/-- The effects of a trace other than log entries. -/
def sideEffects (trace : List Effect) : List Effect :=
  trace.filter (fun e => !e.isLog)

/-- The calls on the embedded runc shim in a trace, in order. -/
def runcCalls : List Effect → List RuncCall
  | [] => []
  | Effect.runc call :: rest => call :: runcCalls rest
  | _ :: rest => runcCalls rest

/-- The number of mount attempts in a trace. -/
def mountAttempts (trace : List Effect) : Nat :=
  (trace.filter (fun e => match e with
    | Effect.MountRootfs _ _ _ _ _ => true
    | _ => false)).length

/-- Whether a trace, started with the rootfs of the bundle directory mounted or
not, never removes the root path of the bundle directory while its rootfs is
mounted: a successful mount mounts it, an unmount unmounts it. -/
def neverRemovedWhileMounted (bundleDir : bundle.Dir) : Bool → List Effect → Bool
  | _, [] => true
  | mounted, Effect.MountRootfs dir _ _ _ none :: rest =>
    neverRemovedWhileMounted bundleDir (mounted || dir == bundleDir) rest
  | mounted, Effect.unmount dir :: rest =>
    neverRemovedWhileMounted bundleDir (mounted && dir != bundleDir) rest
  | mounted, Effect.RemoveAll path _ :: rest =>
    !(mounted && path == bundleDir.RootPath) && neverRemovedWhileMounted bundleDir mounted rest
  | mounted, _ :: rest => neverRemovedWhileMounted bundleDir mounted rest

/-- The request of `Create` after the assignments of lines 128, 162 and 163:
the options are the runc options of the envelope, the bundle is the root path
of the bundle directory of the task and the rootfs is nil. -/
def guestRequest (req : CreateTaskRequest) (extraData : ExtraData) : CreateTaskRequest :=
  { req with
    Options := extraData.RuncOptions
    Bundle := (bundleDirFor req.ID).RootPath
    Rootfs := [] }

/-- The connector proxies handed to the task manager in a trace, in order. -/
def proxiesHandedOver : List Effect → List IOConnectorProxy
  | [] => []
  | Effect.CreateTask _ ioConnectorSet :: rest => ioConnectorSet :: proxiesHandedOver rest
  | _ :: rest => proxiesHandedOver rest

/-- The paths on which `os.RemoveAll` is called in a trace, in order, whatever
the call returned. -/
def removedPaths : List Effect → List String
  | [] => []
  | Effect.RemoveAll path _ :: rest => path :: removedPaths rest
  | _ :: rest => removedPaths rest

/-- The paths that a trace has removed, in order: those on which `os.RemoveAll`
was called and returned no error. -/
def successfullyRemoved : List Effect → List String
  | [] => []
  | Effect.RemoveAll path none :: rest => path :: successfullyRemoved rest
  | _ :: rest => successfullyRemoved rest

/-- Whether a trace has a successful mount. -/
def hasSuccessfulMount : List Effect → Bool
  | [] => false
  | Effect.MountRootfs _ _ _ _ none :: _ => true
  | _ :: rest => hasSuccessfulMount rest

/-- Whether a trace has an unmount. -/
def hasUnmount : List Effect → Bool
  | [] => false
  | Effect.unmount _ :: _ => true
  | _ :: rest => hasUnmount rest

/-- The effects of `Create` up to and including the mount, for the envelope
`x`, the drive `d` and the outcome `m` of the mount. -/
def traceToMount (req : CreateTaskRequest) (x : ExtraData) (d : Drive) (m : Option GoError) :
    List Effect :=
  [Effect.log Level.Info "create", Effect.bundleCreate (bundleDirFor req.ID),
   Effect.ociConfigWrite (bundleDirFor req.ID) x.JsonSpec,
   Effect.GetDrive (strings.TrimSpace x.DriveID),
   Effect.MountRootfs (bundleDirFor req.ID) d.Path "ext4" [] m]

/-- The runs of `Create`, one for each of its return statements: the outcomes
of the calls that lead to the return statement, the effects performed and the
value returned. -/
inductive CreateRun (ts : TaskService) (sys : System) (req : CreateTaskRequest) :
    List Effect × Except GoError CreateTaskResponse → Prop
  | unmarshalFailed (e : GoError)
      (hU : unmarshalExtraData sys req.Options = Except.error e) :
      CreateRun ts sys req
        ([Effect.log Level.Info "create"],
         Except.error (errors.Wrap e "failed to unmarshal extra data"))
  | bundleFailed (x : ExtraData) (e : GoError)
      (hU : unmarshalExtraData sys req.Options = Except.ok x)
      (hB : sys.bundleCreate (bundleDirFor req.ID) = some e) :
      CreateRun ts sys req
        ([Effect.log Level.Info "create", Effect.bundleCreate (bundleDirFor req.ID)],
         Except.error (errors.Wrap e "failed to create bundle dir"))
  | configFailed (x : ExtraData) (e : GoError)
      (hU : unmarshalExtraData sys req.Options = Except.ok x)
      (hB : sys.bundleCreate (bundleDirFor req.ID) = none)
      (hW : sys.ociConfigWrite (bundleDirFor req.ID) x.JsonSpec = some e) :
      CreateRun ts sys req
        ([Effect.log Level.Info "create", Effect.bundleCreate (bundleDirFor req.ID),
          Effect.ociConfigWrite (bundleDirFor req.ID) x.JsonSpec]
          ++ deferredCleanup sys (bundleDirFor req.ID) (some e),
         Except.error (errors.Wrap e "failed to write oci config file"))
  | driveMissing (x : ExtraData) (d : Drive)
      (hU : unmarshalExtraData sys req.Options = Except.ok x)
      (hB : sys.bundleCreate (bundleDirFor req.ID) = none)
      (hW : sys.ociConfigWrite (bundleDirFor req.ID) x.JsonSpec = none)
      (hD : ts.driveHandler.GetDrive (strings.TrimSpace x.DriveID) = (d, false)) :
      CreateRun ts sys req
        ([Effect.log Level.Info "create", Effect.bundleCreate (bundleDirFor req.ID),
          Effect.ociConfigWrite (bundleDirFor req.ID) x.JsonSpec,
          Effect.GetDrive (strings.TrimSpace x.DriveID)],
         Except.error (GoError.errorf "Drive %q could not be found"
           [strings.TrimSpace x.DriveID]))
  | mountFailed (x : ExtraData) (d : Drive) (e : GoError)
      (hU : unmarshalExtraData sys req.Options = Except.ok x)
      (hB : sys.bundleCreate (bundleDirFor req.ID) = none)
      (hW : sys.ociConfigWrite (bundleDirFor req.ID) x.JsonSpec = none)
      (hD : ts.driveHandler.GetDrive (strings.TrimSpace x.DriveID) = (d, true))
      (hM : sys.MountRootfs (bundleDirFor req.ID) d.Path "ext4" [] = some e) :
      CreateRun ts sys req
        (traceToMount req x d (some e) ++ deferredCleanup sys (bundleDirFor req.ID) (some e),
         Except.error e)
  | fifoFailed (x : ExtraData) (d : Drive) (e : GoError)
      (hU : unmarshalExtraData sys req.Options = Except.ok x)
      (hB : sys.bundleCreate (bundleDirFor req.ID) = none)
      (hW : sys.ociConfigWrite (bundleDirFor req.ID) x.JsonSpec = none)
      (hD : ts.driveHandler.GetDrive (strings.TrimSpace x.DriveID) = (d, true))
      (hM : sys.MountRootfs (bundleDirFor req.ID) d.Path "ext4" [] = none)
      (hF : sys.NewFIFOSetInDir (bundleDirFor req.ID).RootPath req.ID req.Terminal
        = Except.error e) :
      CreateRun ts sys req
        (traceToMount req x d none ++
          [Effect.NewFIFOSetInDir (bundleDirFor req.ID).RootPath req.ID req.Terminal,
           Effect.log Level.Error "failed opening stdio FIFOs"]
          ++ deferredCleanup sys (bundleDirFor req.ID) (some e),
         Except.error (errors.Wrap e "failed to open stdio FIFOs"))
  | taskFailed (x : ExtraData) (d : Drive) (f : FIFOSet) (e : GoError)
      (hU : unmarshalExtraData sys req.Options = Except.ok x)
      (hB : sys.bundleCreate (bundleDirFor req.ID) = none)
      (hW : sys.ociConfigWrite (bundleDirFor req.ID) x.JsonSpec = none)
      (hD : ts.driveHandler.GetDrive (strings.TrimSpace x.DriveID) = (d, true))
      (hM : sys.MountRootfs (bundleDirFor req.ID) d.Path "ext4" [] = none)
      (hF : sys.NewFIFOSetInDir (bundleDirFor req.ID).RootPath req.ID req.Terminal
        = Except.ok f)
      (hT : ts.taskManager.CreateTask (wireStreams (guestRequest req x) x f).1 ts.runcService
        (wireStreams (guestRequest req x) x f).2 = Except.error e) :
      CreateRun ts sys req
        (traceToMount req x d none ++
          [Effect.NewFIFOSetInDir (bundleDirFor req.ID).RootPath req.ID req.Terminal,
           Effect.CreateTask (wireStreams (guestRequest req x) x f).1
             (wireStreams (guestRequest req x) x f).2]
          ++ deferredCleanup sys (bundleDirFor req.ID) (some e),
         Except.error (errors.Wrap e "failed to create runc shim for task"))
  | succeeded (x : ExtraData) (d : Drive) (f : FIFOSet) (resp : CreateTaskResponse)
      (hU : unmarshalExtraData sys req.Options = Except.ok x)
      (hB : sys.bundleCreate (bundleDirFor req.ID) = none)
      (hW : sys.ociConfigWrite (bundleDirFor req.ID) x.JsonSpec = none)
      (hD : ts.driveHandler.GetDrive (strings.TrimSpace x.DriveID) = (d, true))
      (hM : sys.MountRootfs (bundleDirFor req.ID) d.Path "ext4" [] = none)
      (hF : sys.NewFIFOSetInDir (bundleDirFor req.ID).RootPath req.ID req.Terminal
        = Except.ok f)
      (hT : ts.taskManager.CreateTask (wireStreams (guestRequest req x) x f).1 ts.runcService
        (wireStreams (guestRequest req x) x f).2 = Except.ok resp) :
      CreateRun ts sys req
        (traceToMount req x d none ++
          [Effect.NewFIFOSetInDir (bundleDirFor req.ID).RootPath req.ID req.Terminal,
           Effect.CreateTask (wireStreams (guestRequest req x) x f).1
             (wireStreams (guestRequest req x) x f).2,
           Effect.log Level.Debug "create succeeded"],
         Except.ok resp)

/-- The requests handed to the task manager by `CreateTask` in a trace, in
order. -/
def requestsHandedOver : List Effect → List CreateTaskRequest
  | [] => []
  | Effect.CreateTask req _ :: rest => req :: requestsHandedOver rest
  | _ :: rest => requestsHandedOver rest

/-- Whether every mount attempt of a trace comes after a drive lookup of the
trace; the flag tells whether a lookup has been seen before the trace. -/
def mountsFollowLookup : Bool → List Effect → Bool
  | _, [] => true
  | _, Effect.GetDrive _ :: rest => mountsFollowLookup true rest
  | lookedUp, Effect.MountRootfs _ _ _ _ _ :: rest => lookedUp && mountsFollowLookup lookedUp rest
  | lookedUp, _ :: rest => mountsFollowLookup lookedUp rest

/-- Whether a cleaned path is a strict descendant of the cleaned directory
`root`: it starts with `root` and a separator, and goes on after them. -/
def isStrictlyUnder (root path : String) : Bool :=
  (root.data ++ ['/']).isPrefixOf path.data && (root.data ++ ['/']).length < path.data.length

/-- Whether a task id is a single path element that names a directory entry:
not empty, without a separator, and neither `.` nor `..`. -/
def isPathElement (id : String) : Prop :=
  id ≠ "" ∧ '/' ∉ id.data ∧ id ≠ "." ∧ id ≠ ".."

/-! ## Concrete collaborators and requests -/

namespace Example

/-- An envelope: drive `d1` (with surrounding blanks), stdout on port 100. -/
def extraData : ExtraData :=
  { JsonSpec := [123, 125], RuncOptions := some { TypeUrl := "runc.Options", Value := [1] },
    StdinPort := 0, StdoutPort := 100, StderrPort := 0, DriveID := " d1 " }

/-- A Create request for task `t1` that asks for stdout only. -/
def request : CreateTaskRequest :=
  { ID := "t1", Bundle := "/host/bundle/t1",
    Rootfs := [{ Type_ := "ext4", Source := "/host/dev", Options := [] }],
    Terminal := false, Stdin := "", Stdout := "/host/fifo/stdout", Stderr := "",
    Checkpoint := "", ParentCheckpoint := "",
    Options := some { TypeUrl := "ExtraData", Value := [0] } }

/-- A runc shim of which every operation has the given outcome. -/
def runc (failure : Option GoError) : taskAPI.TaskService :=
  let outcome {α : Type} (resp : α) : Except GoError α :=
    match failure with
    | some err => Except.error err
    | none => Except.ok resp
  { State := fun req => outcome { ID := req.ID, Bundle := "/container/t1", Pid := 7, Status := 2 }
    Start := fun _ => outcome { Pid := 7 }
    Pids := fun _ => outcome { Processes := [7] }
    Pause := fun _ => outcome {}
    Resume := fun _ => outcome {}
    Checkpoint := fun _ => outcome {}
    Kill := fun _ => outcome {}
    Exec := fun _ => outcome {}
    ResizePty := fun _ => outcome {}
    CloseIO := fun _ => outcome {}
    Update := fun _ => outcome {}
    Wait := fun _ => outcome { ExitStatus := 0 }
    Stats := fun _ => outcome { Stats := none }
    Connect := fun _ => outcome { ShimPid := 1, TaskPid := 7, Version := "2" }
    Shutdown := fun _ => outcome {} }

/-- A drive handler in which only the drive `d1` is registered, at `/dev/vdb`. -/
def drives : driveHandler :=
  { GetDrive := fun id => if id = "d1" then ({ Path := "/dev/vdb" }, true) else ({ Path := "" }, false) }

/-- A task service over the drive handler `drives` whose task manager has the
given outcome for `CreateTask`, and whose runc shim has the given outcome. -/
def service (createFailure runcFailure : Option GoError) : TaskService :=
  { taskManager :=
      { CreateTask := fun _ _ _ =>
          match createFailure with
          | some err => Except.error err
          | none => Except.ok { Pid := 7 }
        DeleteTask := fun _ _ => Except.ok { Pid := 7, ExitStatus := 0 } }
    runcService := runc runcFailure
    driveHandler := drives }

/-- A system in which the envelope of every request unmarshals to the given
message, or fails to with the given error, and the mount and the creation of
the FIFO set have the given outcomes; everything else succeeds. -/
def system (envelope : ExtraData) (unmarshalFailure mountFailure fifoFailure : Option GoError) :
    System :=
  { UnmarshalAny := fun _ =>
      match unmarshalFailure with
      | some err => ({ JsonSpec := [], RuncOptions := none, StdinPort := 0, StdoutPort := 0,
                       StderrPort := 0, DriveID := "" }, some err)
      | none => (envelope, none)
    bundleCreate := fun _ => none
    ociConfigWrite := fun _ _ => none
    MountRootfs := fun _ _ _ _ => mountFailure
    NewFIFOSetInDir := fun root id _ =>
      match fifoFailure with
      | some err => Except.error err
      | none => Except.ok { Stdin := root ++ "/" ++ id ++ "-stdin",
                            Stdout := root ++ "/" ++ id ++ "-stdout",
                            Stderr := root ++ "/" ++ id ++ "-stderr" }
    RemoveAll := fun _ => none }

/-- The system `system` in which every removal fails with EBUSY, as the
removal of a directory with a mounted file system below it does. -/
def busySystem (envelope : ExtraData) (unmarshalFailure mountFailure fifoFailure : Option GoError) :
    System :=
  { system envelope unmarshalFailure mountFailure fifoFailure with
    RemoveAll := fun _ => some (GoError.errno syscall.EBUSY) }

end Example

/-! ## The retryable-error predicate -/

/-- C1: `isRetryableMountError` is true exactly for the bare errnos EINVAL and
ENOMEM: true for those two, false for every other errno, false for nil and
false for every error that is not a bare errno, also one that wraps EINVAL or
ENOMEM. -/
theorem isRetryableMountError_iff :
    (∀ err : Option GoError, isRetryableMountError err = true ↔
      (err = some (GoError.errno syscall.EINVAL) ∨ err = some (GoError.errno syscall.ENOMEM))) ∧
    isRetryableMountError (some (GoError.errno syscall.EINVAL)) = true ∧
    isRetryableMountError (some (GoError.errno syscall.ENOMEM)) = true ∧
    (∀ code : syscall.Errno, code ≠ syscall.EINVAL → code ≠ syscall.ENOMEM →
      isRetryableMountError (some (GoError.errno code)) = false) ∧
    isRetryableMountError none = false ∧
    (∀ cause message, isRetryableMountError (some (GoError.wrapped cause message)) = false) ∧
    (∀ format args, isRetryableMountError (some (GoError.errorf format args)) = false) ∧
    (∀ message, isRetryableMountError (some (GoError.other message)) = false) := by
  refine ⟨?_, rfl, rfl, ?_, rfl, fun _ _ => rfl, fun _ _ => rfl, fun _ => rfl⟩
  · intro err
    rcases err with _ | (code | ⟨cause, message⟩ | ⟨format, args⟩ | message) <;>
      simp [isRetryableMountError, assertErrno]
  · intro code h1 h2
    simp [isRetryableMountError, assertErrno, h1, h2]

/-- C1, at EACCES: an errno other than EINVAL and ENOMEM is not retryable. -/
theorem isRetryableMountError_iff_witness :
    syscall.EACCES ≠ syscall.EINVAL ∧ syscall.EACCES ≠ syscall.ENOMEM ∧
    isRetryableMountError (some (GoError.errno syscall.EACCES)) = false :=
  ⟨by decide, by decide,
    isRetryableMountError_iff.2.2.2.1 syscall.EACCES (by decide) (by decide)⟩

/-! ## The paths through `Create` -/

/-- The value of `unmarshalExtraData` when `types.UnmarshalAny` fails. -/
theorem unmarshalExtraData_of_error (sys : System) (marshalled : Option Any) (e : GoError)
    (h : (sys.UnmarshalAny marshalled).2 = some e) :
    unmarshalExtraData sys marshalled = Except.error e := by
  unfold unmarshalExtraData
  rcases hu : sys.UnmarshalAny marshalled with ⟨x, err⟩
  rw [hu] at h
  simp only at h
  subst h
  rfl

/-- The value of `unmarshalExtraData` when `types.UnmarshalAny` succeeds. -/
theorem unmarshalExtraData_of_ok (sys : System) (marshalled : Option Any) (x : ExtraData)
    (h : sys.UnmarshalAny marshalled = (x, none)) :
    unmarshalExtraData sys marshalled = Except.ok x := by
  unfold unmarshalExtraData
  rw [h]

/-- The envelope does not unmarshal: `Create` returns before any other call. -/
theorem Create_unmarshal_failed (ts : TaskService) (sys : System) (req : CreateTaskRequest)
    (e : GoError) (hU : unmarshalExtraData sys req.Options = Except.error e) :
    ts.Create sys req =
      ([Effect.log Level.Info "create"],
       Except.error (errors.Wrap e "failed to unmarshal extra data")) := by
  simp [TaskService.Create, TaskService.createBody, hU]

/-- The bundle directory cannot be created: `Create` returns with no cleanup. -/
theorem Create_bundle_failed (ts : TaskService) (sys : System) (req : CreateTaskRequest)
    (x : ExtraData) (e : GoError)
    (hU : unmarshalExtraData sys req.Options = Except.ok x)
    (hB : sys.bundleCreate (bundleDirFor req.ID) = some e) :
    ts.Create sys req =
      ([Effect.log Level.Info "create", Effect.bundleCreate (bundleDirFor req.ID)],
       Except.error (errors.Wrap e "failed to create bundle dir")) := by
  simp [TaskService.Create, TaskService.createBody, hU, hB]

/-- The config cannot be written: the deferred cleanup runs. -/
theorem Create_config_failed (ts : TaskService) (sys : System) (req : CreateTaskRequest)
    (x : ExtraData) (e : GoError)
    (hU : unmarshalExtraData sys req.Options = Except.ok x)
    (hB : sys.bundleCreate (bundleDirFor req.ID) = none)
    (hW : sys.ociConfigWrite (bundleDirFor req.ID) x.JsonSpec = some e) :
    ts.Create sys req =
      ([Effect.log Level.Info "create", Effect.bundleCreate (bundleDirFor req.ID),
        Effect.ociConfigWrite (bundleDirFor req.ID) x.JsonSpec]
        ++ deferredCleanup sys (bundleDirFor req.ID) (some e),
       Except.error (errors.Wrap e "failed to write oci config file")) := by
  simp [TaskService.Create, TaskService.createBody, hU, hB, hW]

/-- The drive is not registered: `Create` returns with the local variable `err`
still nil, so the deferred cleanup removes nothing. -/
theorem Create_drive_missing (ts : TaskService) (sys : System) (req : CreateTaskRequest)
    (x : ExtraData) (d : Drive)
    (hU : unmarshalExtraData sys req.Options = Except.ok x)
    (hB : sys.bundleCreate (bundleDirFor req.ID) = none)
    (hW : sys.ociConfigWrite (bundleDirFor req.ID) x.JsonSpec = none)
    (hD : ts.driveHandler.GetDrive (strings.TrimSpace x.DriveID) = (d, false)) :
    ts.Create sys req =
      ([Effect.log Level.Info "create", Effect.bundleCreate (bundleDirFor req.ID),
        Effect.ociConfigWrite (bundleDirFor req.ID) x.JsonSpec,
        Effect.GetDrive (strings.TrimSpace x.DriveID)],
       Except.error (GoError.errorf "Drive %q could not be found"
         [strings.TrimSpace x.DriveID])) := by
  simp [TaskService.Create, TaskService.createBody, hU, hB, hW, hD, deferredCleanup]

/-- The mount fails: `Create` returns the error of the mount after the deferred
cleanup. -/
theorem Create_mount_failed (ts : TaskService) (sys : System) (req : CreateTaskRequest)
    (x : ExtraData) (d : Drive) (e : GoError)
    (hU : unmarshalExtraData sys req.Options = Except.ok x)
    (hB : sys.bundleCreate (bundleDirFor req.ID) = none)
    (hW : sys.ociConfigWrite (bundleDirFor req.ID) x.JsonSpec = none)
    (hD : ts.driveHandler.GetDrive (strings.TrimSpace x.DriveID) = (d, true))
    (hM : sys.MountRootfs (bundleDirFor req.ID) d.Path "ext4" [] = some e) :
    ts.Create sys req =
      (traceToMount req x d (some e) ++ deferredCleanup sys (bundleDirFor req.ID) (some e),
       Except.error e) := by
  simp [TaskService.Create, TaskService.createBody, hU, hB, hW, hD, hM, traceToMount]

/-- The FIFO set cannot be created: the deferred cleanup runs after the
successful mount. -/
theorem Create_fifo_failed (ts : TaskService) (sys : System) (req : CreateTaskRequest)
    (x : ExtraData) (d : Drive) (e : GoError)
    (hU : unmarshalExtraData sys req.Options = Except.ok x)
    (hB : sys.bundleCreate (bundleDirFor req.ID) = none)
    (hW : sys.ociConfigWrite (bundleDirFor req.ID) x.JsonSpec = none)
    (hD : ts.driveHandler.GetDrive (strings.TrimSpace x.DriveID) = (d, true))
    (hM : sys.MountRootfs (bundleDirFor req.ID) d.Path "ext4" [] = none)
    (hF : sys.NewFIFOSetInDir (bundleDirFor req.ID).RootPath req.ID req.Terminal
      = Except.error e) :
    ts.Create sys req =
      (traceToMount req x d none ++
        [Effect.NewFIFOSetInDir (bundleDirFor req.ID).RootPath req.ID req.Terminal,
         Effect.log Level.Error "failed opening stdio FIFOs"]
        ++ deferredCleanup sys (bundleDirFor req.ID) (some e),
       Except.error (errors.Wrap e "failed to open stdio FIFOs")) := by
  simp [TaskService.Create, TaskService.createBody, hU, hB, hW, hD, hM, hF, traceToMount]

/-- The task manager fails: the deferred cleanup runs after the successful
mount. -/
theorem Create_task_failed (ts : TaskService) (sys : System) (req : CreateTaskRequest)
    (x : ExtraData) (d : Drive) (f : FIFOSet) (e : GoError)
    (hU : unmarshalExtraData sys req.Options = Except.ok x)
    (hB : sys.bundleCreate (bundleDirFor req.ID) = none)
    (hW : sys.ociConfigWrite (bundleDirFor req.ID) x.JsonSpec = none)
    (hD : ts.driveHandler.GetDrive (strings.TrimSpace x.DriveID) = (d, true))
    (hM : sys.MountRootfs (bundleDirFor req.ID) d.Path "ext4" [] = none)
    (hF : sys.NewFIFOSetInDir (bundleDirFor req.ID).RootPath req.ID req.Terminal
      = Except.ok f)
    (hT : ts.taskManager.CreateTask (wireStreams (guestRequest req x) x f).1 ts.runcService
      (wireStreams (guestRequest req x) x f).2 = Except.error e) :
    ts.Create sys req =
      (traceToMount req x d none ++
        [Effect.NewFIFOSetInDir (bundleDirFor req.ID).RootPath req.ID req.Terminal,
         Effect.CreateTask (wireStreams (guestRequest req x) x f).1
           (wireStreams (guestRequest req x) x f).2]
        ++ deferredCleanup sys (bundleDirFor req.ID) (some e),
       Except.error (errors.Wrap e "failed to create runc shim for task")) := by
  have hT2 := hT
  simp only [guestRequest] at hT2
  simp [TaskService.Create, TaskService.createBody, hU, hB, hW, hD, hM, hF, hT2, traceToMount,
    guestRequest]

/-- The task manager succeeds: `Create` returns its response and removes
nothing. -/
theorem Create_succeeded (ts : TaskService) (sys : System) (req : CreateTaskRequest)
    (x : ExtraData) (d : Drive) (f : FIFOSet) (resp : CreateTaskResponse)
    (hU : unmarshalExtraData sys req.Options = Except.ok x)
    (hB : sys.bundleCreate (bundleDirFor req.ID) = none)
    (hW : sys.ociConfigWrite (bundleDirFor req.ID) x.JsonSpec = none)
    (hD : ts.driveHandler.GetDrive (strings.TrimSpace x.DriveID) = (d, true))
    (hM : sys.MountRootfs (bundleDirFor req.ID) d.Path "ext4" [] = none)
    (hF : sys.NewFIFOSetInDir (bundleDirFor req.ID).RootPath req.ID req.Terminal
      = Except.ok f)
    (hT : ts.taskManager.CreateTask (wireStreams (guestRequest req x) x f).1 ts.runcService
      (wireStreams (guestRequest req x) x f).2 = Except.ok resp) :
    ts.Create sys req =
      (traceToMount req x d none ++
        [Effect.NewFIFOSetInDir (bundleDirFor req.ID).RootPath req.ID req.Terminal,
         Effect.CreateTask (wireStreams (guestRequest req x) x f).1
           (wireStreams (guestRequest req x) x f).2,
         Effect.log Level.Debug "create succeeded"],
       Except.ok resp) := by
  have hT2 := hT
  simp only [guestRequest] at hT2
  simp [TaskService.Create, TaskService.createBody, hU, hB, hW, hD, hM, hF, hT2, traceToMount,
    guestRequest, deferredCleanup]

/-- Every execution of `Create` is one of the runs of `CreateRun`. -/
theorem Create_run (ts : TaskService) (sys : System) (req : CreateTaskRequest) :
    CreateRun ts sys req (ts.Create sys req) := by
  rcases hU : unmarshalExtraData sys req.Options with e | x
  · rw [Create_unmarshal_failed ts sys req e hU]
    exact CreateRun.unmarshalFailed e hU
  rcases hB : sys.bundleCreate (bundleDirFor req.ID) with _ | e
  swap
  · rw [Create_bundle_failed ts sys req x e hU hB]
    exact CreateRun.bundleFailed x e hU hB
  rcases hW : sys.ociConfigWrite (bundleDirFor req.ID) x.JsonSpec with _ | e
  swap
  · rw [Create_config_failed ts sys req x e hU hB hW]
    exact CreateRun.configFailed x e hU hB hW
  rcases hD : ts.driveHandler.GetDrive (strings.TrimSpace x.DriveID) with ⟨d, ok⟩
  cases ok
  · rw [Create_drive_missing ts sys req x d hU hB hW hD]
    exact CreateRun.driveMissing x d hU hB hW hD
  rcases hM : sys.MountRootfs (bundleDirFor req.ID) d.Path "ext4" [] with _ | e
  swap
  · rw [Create_mount_failed ts sys req x d e hU hB hW hD hM]
    exact CreateRun.mountFailed x d e hU hB hW hD hM
  rcases hF : sys.NewFIFOSetInDir (bundleDirFor req.ID).RootPath req.ID req.Terminal with e | f
  · rw [Create_fifo_failed ts sys req x d e hU hB hW hD hM hF]
    exact CreateRun.fifoFailed x d e hU hB hW hD hM hF
  rcases hT : ts.taskManager.CreateTask (wireStreams (guestRequest req x) x f).1 ts.runcService
      (wireStreams (guestRequest req x) x f).2 with e | resp
  · rw [Create_task_failed ts sys req x d f e hU hB hW hD hM hF hT]
    exact CreateRun.taskFailed x d f e hU hB hW hD hM hF hT
  · rw [Create_succeeded ts sys req x d f resp hU hB hW hD hM hF hT]
    exact CreateRun.succeeded x d f resp hU hB hW hD hM hF hT

/-! ## Lemmas on traces -/

/-- The removed paths of a concatenation. -/
theorem removedPaths_append (a b : List Effect) :
    removedPaths (a ++ b) = removedPaths a ++ removedPaths b := by
  induction a with
  | nil => rfl
  | cons e rest ih => cases e <;> simp [removedPaths, ih]

/-- The deferred cleanup with a non-nil `err` removes the root path of the
bundle directory, and nothing else. -/
theorem removedPaths_deferredCleanup (sys : System) (dir : bundle.Dir) (e : GoError) :
    removedPaths (deferredCleanup sys dir (some e)) = [dir.RootPath] := by
  cases hR : sys.RemoveAll dir.RootPath <;> simp [deferredCleanup, hR, removedPaths]

/-- Nothing is removed up to and including the mount. -/
theorem removedPaths_traceToMount (req : CreateTaskRequest) (x : ExtraData) (d : Drive)
    (m : Option GoError) : removedPaths (traceToMount req x d m) = [] := by
  simp [traceToMount, removedPaths]

/-! ## Rollback of the bundle directory -/

/-- C2: at a Create request for task `t1` whose drive id `d9` is not
registered, with the envelope parsed and the bundle directory and its config
written, `Create` returns the drive error after the drive lookup as its last
effect: no path is removed, the bundle directory `/container/t1` stays. -/
theorem Create_unregistered_drive_keeps_bundle :
    (Example.service none none).Create
        (Example.system { Example.extraData with DriveID := "d9" } none none none)
        Example.request
      = ([Effect.log Level.Info "create",
          Effect.bundleCreate { path := "/container/t1" },
          Effect.ociConfigWrite { path := "/container/t1" } [123, 125],
          Effect.GetDrive "d9"],
         Except.error (GoError.errorf "Drive %q could not be found" ["d9"])) ∧
    removedPaths ((Example.service none none).Create
        (Example.system { Example.extraData with DriveID := "d9" } none none none)
        Example.request).1 = [] := by
  constructor <;> rfl

/-- C3, refuted as stated: when the creation of the FIFO set fails after the
mount on the bundle directory of task `t1`, in a system where the removal of
the bundle directory fails with EBUSY, `Create` returns the error with the
bundle directory not removed: the one call of `os.RemoveAll` fails, and the
failure is only logged. -/
theorem Create_cleanup_can_fail :
    (Example.service none none).Create
        (Example.busySystem Example.extraData none none (some (GoError.other "mkfifo")))
        Example.request
      = ([Effect.log Level.Info "create",
          Effect.bundleCreate { path := "/container/t1" },
          Effect.ociConfigWrite { path := "/container/t1" } [123, 125],
          Effect.GetDrive "d1",
          Effect.MountRootfs { path := "/container/t1" } "/dev/vdb" "ext4" [] none,
          Effect.NewFIFOSetInDir "/container/t1" "t1" false,
          Effect.log Level.Error "failed opening stdio FIFOs",
          Effect.RemoveAll "/container/t1" (some (GoError.errno syscall.EBUSY)),
          Effect.log Level.Error "failed to cleanup bundle dir"],
         Except.error (GoError.wrapped (GoError.other "mkfifo") "failed to open stdio FIFOs")) ∧
    successfullyRemoved ((Example.service none none).Create
        (Example.busySystem Example.extraData none none (some (GoError.other "mkfifo")))
        Example.request).1 = [] := by
  constructor <;> rfl

/-- C3, amended: for a Create request that gets past drive resolution, a
failure of the mount, of the creation of the FIFO set or of the task manager
makes `Create` return an error and no response, after the deferred cleanup has
called `os.RemoveAll` once, on the root path of the bundle directory, and on no
other path. When that call returns no error the bundle directory has been
removed; when it returns an error nothing has been removed, the last effect of
`Create` is the log entry of the failed cleanup, and the error returned is
still that of the failed step. When the task manager succeeds `Create` returns
its response and calls `os.RemoveAll` on nothing. -/
theorem Create_failure_after_drive_resolution_runs_cleanup
    (ts : TaskService) (sys : System) (req : CreateTaskRequest) (x : ExtraData) (d : Drive)
    (hU : sys.UnmarshalAny req.Options = (x, none))
    (hB : sys.bundleCreate (bundleDirFor req.ID) = none)
    (hW : sys.ociConfigWrite (bundleDirFor req.ID) x.JsonSpec = none)
    (hD : ts.driveHandler.GetDrive (strings.TrimSpace x.DriveID) = (d, true)) :
    (∀ e, sys.MountRootfs (bundleDirFor req.ID) d.Path "ext4" [] = some e →
      (ts.Create sys req).2 = Except.error e ∧
      removedPaths (ts.Create sys req).1 = [(bundleDirFor req.ID).RootPath] ∧
      Effect.RemoveAll (bundleDirFor req.ID).RootPath
        (sys.RemoveAll (bundleDirFor req.ID).RootPath) ∈ (ts.Create sys req).1 ∧
      (sys.RemoveAll (bundleDirFor req.ID).RootPath = none →
        successfullyRemoved (ts.Create sys req).1 = [(bundleDirFor req.ID).RootPath]) ∧
      (∀ r, sys.RemoveAll (bundleDirFor req.ID).RootPath = some r →
        successfullyRemoved (ts.Create sys req).1 = [] ∧
        (ts.Create sys req).1.getLast?
          = some (Effect.log Level.Error "failed to cleanup bundle dir"))) ∧
    (∀ e, sys.MountRootfs (bundleDirFor req.ID) d.Path "ext4" [] = none →
      sys.NewFIFOSetInDir (bundleDirFor req.ID).RootPath req.ID req.Terminal = Except.error e →
      (ts.Create sys req).2 = Except.error (errors.Wrap e "failed to open stdio FIFOs") ∧
      removedPaths (ts.Create sys req).1 = [(bundleDirFor req.ID).RootPath] ∧
      Effect.RemoveAll (bundleDirFor req.ID).RootPath
        (sys.RemoveAll (bundleDirFor req.ID).RootPath) ∈ (ts.Create sys req).1 ∧
      (sys.RemoveAll (bundleDirFor req.ID).RootPath = none →
        successfullyRemoved (ts.Create sys req).1 = [(bundleDirFor req.ID).RootPath]) ∧
      (∀ r, sys.RemoveAll (bundleDirFor req.ID).RootPath = some r →
        successfullyRemoved (ts.Create sys req).1 = [] ∧
        (ts.Create sys req).1.getLast?
          = some (Effect.log Level.Error "failed to cleanup bundle dir"))) ∧
    (∀ f e, sys.MountRootfs (bundleDirFor req.ID) d.Path "ext4" [] = none →
      sys.NewFIFOSetInDir (bundleDirFor req.ID).RootPath req.ID req.Terminal = Except.ok f →
      ts.taskManager.CreateTask (wireStreams (guestRequest req x) x f).1 ts.runcService
        (wireStreams (guestRequest req x) x f).2 = Except.error e →
      (ts.Create sys req).2
        = Except.error (errors.Wrap e "failed to create runc shim for task") ∧
      removedPaths (ts.Create sys req).1 = [(bundleDirFor req.ID).RootPath] ∧
      Effect.RemoveAll (bundleDirFor req.ID).RootPath
        (sys.RemoveAll (bundleDirFor req.ID).RootPath) ∈ (ts.Create sys req).1 ∧
      (sys.RemoveAll (bundleDirFor req.ID).RootPath = none →
        successfullyRemoved (ts.Create sys req).1 = [(bundleDirFor req.ID).RootPath]) ∧
      (∀ r, sys.RemoveAll (bundleDirFor req.ID).RootPath = some r →
        successfullyRemoved (ts.Create sys req).1 = [] ∧
        (ts.Create sys req).1.getLast?
          = some (Effect.log Level.Error "failed to cleanup bundle dir"))) ∧
    (∀ f resp, sys.MountRootfs (bundleDirFor req.ID) d.Path "ext4" [] = none →
      sys.NewFIFOSetInDir (bundleDirFor req.ID).RootPath req.ID req.Terminal = Except.ok f →
      ts.taskManager.CreateTask (wireStreams (guestRequest req x) x f).1 ts.runcService
        (wireStreams (guestRequest req x) x f).2 = Except.ok resp →
      (ts.Create sys req).2 = Except.ok resp ∧
      removedPaths (ts.Create sys req).1 = []) := by
  have hU2 := unmarshalExtraData_of_ok sys req.Options x hU
  refine ⟨?_, ?_, ?_, ?_⟩
  · intro e hM
    rw [Create_mount_failed ts sys req x d e hU2 hB hW hD hM]
    cases hR : sys.RemoveAll (bundleDirFor req.ID).RootPath <;>
      simp [traceToMount, deferredCleanup, hR, removedPaths, successfullyRemoved]
  · intro e hM hF
    rw [Create_fifo_failed ts sys req x d e hU2 hB hW hD hM hF]
    cases hR : sys.RemoveAll (bundleDirFor req.ID).RootPath <;>
      simp [traceToMount, deferredCleanup, hR, removedPaths, successfullyRemoved]
  · intro f e hM hF hT
    rw [Create_task_failed ts sys req x d f e hU2 hB hW hD hM hF hT]
    cases hR : sys.RemoveAll (bundleDirFor req.ID).RootPath <;>
      simp [traceToMount, deferredCleanup, hR, removedPaths, successfullyRemoved]
  · intro f resp hM hF hT
    rw [Create_succeeded ts sys req x d f resp hU2 hB hW hD hM hF hT]
    simp [traceToMount, removedPaths]

/-- C3, at the request for task `t1` on the registered drive `d1` when the
mount fails with EACCES and the removal succeeds: the error of the mount is
returned and `/container/t1` has been removed. -/
theorem Create_failure_after_drive_resolution_runs_cleanup_witness :
    (Example.system Example.extraData none (some (GoError.errno syscall.EACCES)) none).UnmarshalAny
        Example.request.Options = (Example.extraData, none) ∧
    (Example.service none none).driveHandler.GetDrive
        (strings.TrimSpace Example.extraData.DriveID) = ({ Path := "/dev/vdb" }, true) ∧
    ((Example.service none none).Create
        (Example.system Example.extraData none (some (GoError.errno syscall.EACCES)) none)
        Example.request).2 = Except.error (GoError.errno syscall.EACCES) ∧
    successfullyRemoved ((Example.service none none).Create
        (Example.system Example.extraData none (some (GoError.errno syscall.EACCES)) none)
        Example.request).1 = ["/container/t1"] :=
  ⟨rfl, rfl,
    ((Create_failure_after_drive_resolution_runs_cleanup (Example.service none none)
      (Example.system Example.extraData none (some (GoError.errno syscall.EACCES)) none)
      Example.request Example.extraData { Path := "/dev/vdb" } rfl rfl rfl rfl).1
      (GoError.errno syscall.EACCES) rfl).1,
    ((Create_failure_after_drive_resolution_runs_cleanup (Example.service none none)
      (Example.system Example.extraData none (some (GoError.errno syscall.EACCES)) none)
      Example.request Example.extraData { Path := "/dev/vdb" } rfl rfl rfl rfl).1
      (GoError.errno syscall.EACCES) rfl).2.2.2.1 rfl⟩

/-! ## Removal and mount -/

/-- C4, refuted as stated: when the creation of the FIFO set fails after the
mount of `/dev/vdb` on the bundle directory of task `t1` has succeeded, and
when the task manager fails after it, `Create` removes the root path of the
bundle directory with the rootfs still mounted. -/
theorem Create_removes_bundle_while_mounted :
    neverRemovedWhileMounted (bundleDirFor "t1") false
      ((Example.service none none).Create
        (Example.system Example.extraData none none (some (GoError.other "mkfifo")))
        Example.request).1 = false ∧
    neverRemovedWhileMounted (bundleDirFor "t1") false
      ((Example.service (some (GoError.other "runc")) none).Create
        (Example.system Example.extraData none none none)
        Example.request).1 = false := by
  constructor <;> rfl

/-- C4, amended: `Create` never unmounts, and it removes the root path of the
bundle directory while the rootfs is mounted exactly when it fails after a
successful mount (the creation of the FIFO set or the task manager failed);
in every other execution no removal follows a successful mount. -/
theorem Create_removal_while_mounted_iff
    (ts : TaskService) (sys : System) (req : CreateTaskRequest) :
    hasUnmount (ts.Create sys req).1 = false ∧
    (neverRemovedWhileMounted (bundleDirFor req.ID) false (ts.Create sys req).1 = false ↔
      (hasSuccessfulMount (ts.Create sys req).1 = true ∧
        ∃ e, (ts.Create sys req).2 = Except.error e)) := by
  have h := Create_run ts sys req
  generalize ts.Create sys req = r at h
  cases h <;>
    cases hR : sys.RemoveAll (bundleDirFor req.ID).RootPath <;>
    simp [traceToMount, deferredCleanup, hR, hasUnmount, hasSuccessfulMount,
      neverRemovedWhileMounted]

/-! ## Mount attempts -/

/-- C5, refuted as stated: a mount that fails with EINVAL is retryable by
`isRetryableMountError`, and `Create` makes that one attempt only and returns
the error. -/
theorem Create_does_not_retry_mount :
    isRetryableMountError (some (GoError.errno syscall.EINVAL)) = true ∧
    mountAttempts ((Example.service none none).Create
        (Example.system Example.extraData none (some (GoError.errno syscall.EINVAL)) none)
        Example.request).1 = 1 ∧
    ((Example.service none none).Create
        (Example.system Example.extraData none (some (GoError.errno syscall.EINVAL)) none)
        Example.request).2 = Except.error (GoError.errno syscall.EINVAL) := by
  refine ⟨rfl, rfl, rfl⟩

/-- C5, amended: `Create` makes at most one mount attempt, and a failed mount
is never attempted again, whether `isRetryableMountError` holds for the
failure or not: `Create` returns the error of that single attempt. -/
theorem Create_mounts_at_most_once
    (ts : TaskService) (sys : System) (req : CreateTaskRequest) :
    mountAttempts (ts.Create sys req).1 ≤ 1 ∧
    ∀ dir source fstype options e,
      Effect.MountRootfs dir source fstype options (some e) ∈ (ts.Create sys req).1 →
      mountAttempts (ts.Create sys req).1 = 1 ∧ (ts.Create sys req).2 = Except.error e := by
  have h := Create_run ts sys req
  generalize ts.Create sys req = r at h
  cases h <;>
    cases hR : sys.RemoveAll (bundleDirFor req.ID).RootPath <;>
    simp [traceToMount, deferredCleanup, hR, mountAttempts] <;>
    (intro _ _ _ _ e _ _ _ _ he; exact he.symm)

/-- C5, at a mount that fails with ENOMEM: the failed attempt is in the trace,
it is the only one, and its error is returned. -/
theorem Create_mounts_at_most_once_witness :
    Effect.MountRootfs (bundleDirFor "t1") "/dev/vdb" "ext4" []
        (some (GoError.errno syscall.ENOMEM)) ∈
      ((Example.service none none).Create
        (Example.system Example.extraData none (some (GoError.errno syscall.ENOMEM)) none)
        Example.request).1 ∧
    mountAttempts ((Example.service none none).Create
        (Example.system Example.extraData none (some (GoError.errno syscall.ENOMEM)) none)
        Example.request).1 = 1 ∧
    ((Example.service none none).Create
        (Example.system Example.extraData none (some (GoError.errno syscall.ENOMEM)) none)
        Example.request).2 = Except.error (GoError.errno syscall.ENOMEM) :=
  ⟨by decide,
    (Create_mounts_at_most_once (Example.service none none)
      (Example.system Example.extraData none (some (GoError.errno syscall.ENOMEM)) none)
      Example.request).2 (bundleDirFor "t1") "/dev/vdb" "ext4" []
      (GoError.errno syscall.ENOMEM) (by decide)⟩

/-! ## A malformed envelope -/

/-- C6: when the envelope of a Create request does not unmarshal, `Create`
returns the error of the unmarshalling, wrapped, and no response, and its only
effect is the log entry at its start: no bundle directory, no config, no drive
lookup, no mount, no removal and no call on the task manager. -/
theorem Create_malformed_envelope_has_no_effect
    (ts : TaskService) (sys : System) (req : CreateTaskRequest) (e : GoError)
    (h : (sys.UnmarshalAny req.Options).2 = some e) :
    ts.Create sys req =
      ([Effect.log Level.Info "create"],
       Except.error (GoError.wrapped e "failed to unmarshal extra data")) ∧
    sideEffects (ts.Create sys req).1 = [] := by
  rw [Create_unmarshal_failed ts sys req e (unmarshalExtraData_of_error sys req.Options e h)]
  exact ⟨rfl, rfl⟩

/-- C6, at the request for task `t1` in a system where unmarshalling fails. -/
theorem Create_malformed_envelope_has_no_effect_witness :
    ((Example.system Example.extraData (some (GoError.other "proto: bad wire type")) none
        none).UnmarshalAny Example.request.Options).2
      = some (GoError.other "proto: bad wire type") ∧
    (Example.service none none).Create
        (Example.system Example.extraData (some (GoError.other "proto: bad wire type")) none none)
        Example.request =
      ([Effect.log Level.Info "create"],
       Except.error (GoError.wrapped (GoError.other "proto: bad wire type")
         "failed to unmarshal extra data")) :=
  ⟨rfl, (Create_malformed_envelope_has_no_effect (Example.service none none)
    (Example.system Example.extraData (some (GoError.other "proto: bad wire type")) none none)
    Example.request (GoError.other "proto: bad wire type") rfl).1⟩

/-! ## Stream wiring -/

/-- The proxy that `wireStreams` builds, stream by stream. -/
theorem wireStreams_proxy (req : CreateTaskRequest) (x : ExtraData) (f : FIFOSet) :
    (wireStreams req x f).2 =
      { stdin := if req.Stdin = "" then none else
          some { ReadConnector := IOConnector.VSockAcceptConnector x.StdinPort,
                 WriteConnector := IOConnector.FIFOConnector f.Stdin },
        stdout := if req.Stdout = "" then none else
          some { ReadConnector := IOConnector.FIFOConnector f.Stdout,
                 WriteConnector := IOConnector.VSockAcceptConnector x.StdoutPort },
        stderr := if req.Stderr = "" then none else
          some { ReadConnector := IOConnector.FIFOConnector f.Stderr,
                 WriteConnector := IOConnector.VSockAcceptConnector x.StderrPort } } := by
  unfold wireStreams vm.NewIOConnectorProxy
  by_cases h1 : req.Stdin = "" <;> by_cases h2 : req.Stdout = "" <;>
    by_cases h3 : req.Stderr = "" <;> simp [h1, h2, h3]

/-- C7: for a Create request that reaches stream wiring, exactly one connector
proxy is handed to the task manager, and in it the pair of a stream is absent
exactly when the path of the stream in the request is empty; the stdin pair
reads from the vsock connector on `StdinPort` and writes to the stdin FIFO, the
stdout pair reads from the stdout FIFO and writes to the vsock connector on
`StdoutPort`, the stderr pair reads from the stderr FIFO and writes to the
vsock connector on `StderrPort`. -/
theorem Create_connector_proxy
    (ts : TaskService) (sys : System) (req : CreateTaskRequest) (x : ExtraData) (d : Drive)
    (f : FIFOSet)
    (hU : sys.UnmarshalAny req.Options = (x, none))
    (hB : sys.bundleCreate (bundleDirFor req.ID) = none)
    (hW : sys.ociConfigWrite (bundleDirFor req.ID) x.JsonSpec = none)
    (hD : ts.driveHandler.GetDrive (strings.TrimSpace x.DriveID) = (d, true))
    (hM : sys.MountRootfs (bundleDirFor req.ID) d.Path "ext4" [] = none)
    (hF : sys.NewFIFOSetInDir (bundleDirFor req.ID).RootPath req.ID req.Terminal
      = Except.ok f) :
    proxiesHandedOver (ts.Create sys req).1 =
      [{ stdin := if req.Stdin = "" then none else
           some { ReadConnector := IOConnector.VSockAcceptConnector x.StdinPort,
                  WriteConnector := IOConnector.FIFOConnector f.Stdin },
         stdout := if req.Stdout = "" then none else
           some { ReadConnector := IOConnector.FIFOConnector f.Stdout,
                  WriteConnector := IOConnector.VSockAcceptConnector x.StdoutPort },
         stderr := if req.Stderr = "" then none else
           some { ReadConnector := IOConnector.FIFOConnector f.Stderr,
                  WriteConnector := IOConnector.VSockAcceptConnector x.StderrPort } }] := by
  have hU2 := unmarshalExtraData_of_ok sys req.Options x hU
  have hP := wireStreams_proxy (guestRequest req x) x f
  simp only [guestRequest] at hP
  rcases hT : ts.taskManager.CreateTask (wireStreams (guestRequest req x) x f).1 ts.runcService
      (wireStreams (guestRequest req x) x f).2 with e | resp
  · rw [Create_task_failed ts sys req x d f e hU2 hB hW hD hM hF hT]
    cases hR : sys.RemoveAll (bundleDirFor req.ID).RootPath <;>
      simp [traceToMount, deferredCleanup, hR, proxiesHandedOver, guestRequest, hP]
  · rw [Create_succeeded ts sys req x d f resp hU2 hB hW hD hM hF hT]
    simp [traceToMount, proxiesHandedOver, guestRequest, hP]

/-- C7, at the request for task `t1`, which asks for stdout only, with stdout
on port 100: the proxy has the stdout pair only, from the stdout FIFO to the
vsock connector on port 100. -/
theorem Create_connector_proxy_witness :
    (Example.system Example.extraData none none none).NewFIFOSetInDir
        (bundleDirFor Example.request.ID).RootPath Example.request.ID Example.request.Terminal
      = Except.ok { Stdin := "/container/t1/t1-stdin", Stdout := "/container/t1/t1-stdout",
                    Stderr := "/container/t1/t1-stderr" } ∧
    proxiesHandedOver ((Example.service none none).Create
        (Example.system Example.extraData none none none) Example.request).1 =
      [{ stdin := none,
         stdout := some { ReadConnector := IOConnector.FIFOConnector "/container/t1/t1-stdout",
                          WriteConnector := IOConnector.VSockAcceptConnector 100 },
         stderr := none }] :=
  ⟨rfl, Create_connector_proxy (Example.service none none)
    (Example.system Example.extraData none none none) Example.request Example.extraData
    { Path := "/dev/vdb" }
    { Stdin := "/container/t1/t1-stdin", Stdout := "/container/t1/t1-stdout",
      Stderr := "/container/t1/t1-stderr" } rfl rfl rfl rfl rfl rfl⟩

/-! ## Forwarding handlers -/

/-- C8: each of State, Start, Pids, Pause, Resume, Checkpoint, Kill, Exec,
ResizePty, CloseIO, Update, Wait, Stats and Connect returns the result of the
operation of the same name of the embedded runc shim on the request it was
given (its response when it succeeds, its error and no response when it
fails), and its only effect besides log entries is that one call, with the
request as given. -/
theorem forwarding_handlers_return_delegate_result (ts : TaskService) :
    (∀ req, (ts.State req).2 = ts.runcService.State req ∧
      sideEffects (ts.State req).1 = [Effect.runc ( RuncCall.State req)]) ∧
    (∀ req, (ts.Start req).2 = ts.runcService.Start req ∧
      sideEffects (ts.Start req).1 = [Effect.runc ( RuncCall.Start req)]) ∧
    (∀ req, (ts.Pids req).2 = ts.runcService.Pids req ∧
      sideEffects (ts.Pids req).1 = [Effect.runc ( RuncCall.Pids req)]) ∧
    (∀ req, (ts.Pause req).2 = ts.runcService.Pause req ∧
      sideEffects (ts.Pause req).1 = [Effect.runc ( RuncCall.Pause req)]) ∧
    (∀ req, (ts.Resume req).2 = ts.runcService.Resume req ∧
      sideEffects (ts.Resume req).1 = [Effect.runc ( RuncCall.Resume req)]) ∧
    (∀ req, (ts.Checkpoint req).2 = ts.runcService.Checkpoint req ∧
      sideEffects (ts.Checkpoint req).1 = [Effect.runc ( RuncCall.Checkpoint req)]) ∧
    (∀ req, (ts.Kill req).2 = ts.runcService.Kill req ∧
      sideEffects (ts.Kill req).1 = [Effect.runc ( RuncCall.Kill req)]) ∧
    (∀ req, (ts.Exec req).2 = ts.runcService.Exec req ∧
      sideEffects (ts.Exec req).1 = [Effect.runc ( RuncCall.Exec req)]) ∧
    (∀ req, (ts.ResizePty req).2 = ts.runcService.ResizePty req ∧
      sideEffects (ts.ResizePty req).1 = [Effect.runc ( RuncCall.ResizePty req)]) ∧
    (∀ req, (ts.CloseIO req).2 = ts.runcService.CloseIO req ∧
      sideEffects (ts.CloseIO req).1 = [Effect.runc ( RuncCall.CloseIO req)]) ∧
    (∀ req, (ts.Update req).2 = ts.runcService.Update req ∧
      sideEffects (ts.Update req).1 = [Effect.runc ( RuncCall.Update req)]) ∧
    (∀ req, (ts.Wait req).2 = ts.runcService.Wait req ∧
      sideEffects (ts.Wait req).1 = [Effect.runc ( RuncCall.Wait req)]) ∧
    (∀ req, (ts.Stats req).2 = ts.runcService.Stats req ∧
      sideEffects (ts.Stats req).1 = [Effect.runc ( RuncCall.Stats req)]) ∧
    (∀ req, (ts.Connect req).2 = ts.runcService.Connect req ∧
      sideEffects (ts.Connect req).1 = [Effect.runc ( RuncCall.Connect req)]) := by
  refine ⟨?_, ?_, ?_, ?_, ?_, ?_, ?_, ?_, ?_, ?_, ?_, ?_, ?_, ?_⟩
  · intro req
    unfold TaskService.State
    cases h : ts.runcService.State req <;> simp [sideEffects, Effect.isLog]
  · intro req
    unfold TaskService.Start
    cases h : ts.runcService.Start req <;> simp [sideEffects, Effect.isLog]
  · intro req
    unfold TaskService.Pids
    cases h : ts.runcService.Pids req <;> simp [sideEffects, Effect.isLog]
  · intro req
    unfold TaskService.Pause
    cases h : ts.runcService.Pause req <;> simp [sideEffects, Effect.isLog]
  · intro req
    unfold TaskService.Resume
    cases h : ts.runcService.Resume req <;> simp [sideEffects, Effect.isLog]
  · intro req
    unfold TaskService.Checkpoint
    cases h : ts.runcService.Checkpoint req <;> simp [sideEffects, Effect.isLog]
  · intro req
    unfold TaskService.Kill
    cases h : ts.runcService.Kill req <;> simp [sideEffects, Effect.isLog]
  · intro req
    unfold TaskService.Exec
    cases h : ts.runcService.Exec req <;> simp [sideEffects, Effect.isLog]
  · intro req
    unfold TaskService.ResizePty
    cases h : ts.runcService.ResizePty req <;> simp [sideEffects, Effect.isLog]
  · intro req
    unfold TaskService.CloseIO
    cases h : ts.runcService.CloseIO req <;> simp [sideEffects, Effect.isLog]
  · intro req
    unfold TaskService.Update
    cases h : ts.runcService.Update req <;> simp [sideEffects, Effect.isLog]
  · intro req
    unfold TaskService.Wait
    cases h : ts.runcService.Wait req <;> simp [sideEffects, Effect.isLog]
  · intro req
    unfold TaskService.Stats
    cases h : ts.runcService.Stats req <;> simp [sideEffects, Effect.isLog]
  · intro req
    unfold TaskService.Connect
    cases h : ts.runcService.Connect req <;> simp [sideEffects, Effect.isLog]

/-! ## Shutdown -/

/-- C9, refuted as stated: over a runc shim whose `Shutdown` fails, the handler
does not return the result of the shim and never called it. -/
theorem Shutdown_does_not_forward :
    ((Example.service none (some (GoError.other "runc shutdown failed"))).Shutdown
        { ID := "t1", Now := true }).2
      ≠ (Example.service none (some (GoError.other "runc shutdown failed"))).runcService.Shutdown
        { ID := "t1", Now := true } ∧
    runcCalls ((Example.service none (some (GoError.other "runc shutdown failed"))).Shutdown
        { ID := "t1", Now := true }).1 = [] := by
  refine ⟨?_, rfl⟩
  intro h
  have h2 : (Except.ok {} : Except GoError Empty)
      = Except.error (GoError.other "runc shutdown failed") := h
  cases h2

/-- C9, amended: `Shutdown` is not forwarded. For every request the handler
makes no call on the embedded runc shim, and it returns an empty response and
no error whatever the shim would return. -/
theorem Shutdown_never_calls_delegate (ts : TaskService) (req : ShutdownRequest) :
    runcCalls (ts.Shutdown req).1 = [] ∧
    sideEffects (ts.Shutdown req).1 = [Effect.shimCancel] ∧
    (ts.Shutdown req).2 = Except.ok {} :=
  ⟨rfl, rfl, rfl⟩

/-- C10: for every Shutdown request the body determines the response, an empty
message and no error, without calling `shimCancel`; the deferred `shimCancel`
then runs as the last effect of the handler, and it is called exactly once. -/
theorem Shutdown_cancels_once_after_response (ts : TaskService) (req : ShutdownRequest) :
    (ts.shutdownBody req).result = Except.ok {} ∧
    Effect.shimCancel ∉ (ts.shutdownBody req).effects ∧
    ts.Shutdown req = ((ts.shutdownBody req).effects ++ [Effect.shimCancel], Except.ok {}) ∧
    (ts.Shutdown req).1.count Effect.shimCancel = 1 := by
  refine ⟨rfl, ?_, rfl, ?_⟩
  · simp [TaskService.shutdownBody]
  · simp [TaskService.Shutdown, TaskService.shutdownBody]

/-! ## Delete -/

/-- C11: for every Delete request the handler calls `DeleteTask` of the task
manager once, with the request as given, and returns its result: its error and
no response when it fails, its response and no error when it succeeds. The
handler itself removes nothing, unmounts nothing and mounts nothing; when
`DeleteTask` fails its whole trace is the opening log entry and that call. -/
theorem Delete_returns_task_manager_result (ts : TaskService) (req : DeleteRequest) :
    (ts.Delete req).2 = ts.taskManager.DeleteTask req ts.runcService ∧
    sideEffects (ts.Delete req).1 = [Effect.DeleteTask req] ∧
    removedPaths (ts.Delete req).1 = [] ∧
    hasUnmount (ts.Delete req).1 = false ∧
    mountAttempts (ts.Delete req).1 = 0 ∧
    (∀ e, ts.taskManager.DeleteTask req ts.runcService = Except.error e →
      ts.Delete req =
        ([Effect.log Level.Debug "delete", Effect.DeleteTask req], Except.error e)) ∧
    (∀ resp, ts.taskManager.DeleteTask req ts.runcService = Except.ok resp →
      (ts.Delete req).2 = Except.ok resp) := by
  unfold TaskService.Delete
  cases h : ts.taskManager.DeleteTask req ts.runcService <;>
    simp [sideEffects, Effect.isLog, removedPaths, hasUnmount, mountAttempts]

/-- C11, over a task manager whose `DeleteTask` succeeds: the response of the
task manager is returned and the only effect besides log entries is the call. -/
theorem Delete_returns_task_manager_result_witness :
    (Example.service none none).taskManager.DeleteTask { ID := "t1", ExecID := "" }
        (Example.service none none).runcService = Except.ok { Pid := 7, ExitStatus := 0 } ∧
    ((Example.service none none).Delete { ID := "t1", ExecID := "" }).2
      = Except.ok { Pid := 7, ExitStatus := 0 } :=
  ⟨rfl, (Delete_returns_task_manager_result (Example.service none none)
    { ID := "t1", ExecID := "" }).2.2.2.2.2.2 { Pid := 7, ExitStatus := 0 } rfl⟩

/-! ## The request handed to the task manager -/

/-- The request that `wireStreams` builds: each stream path is replaced by the
FIFO of the stream when it is not empty, and nothing else changes. -/
theorem wireStreams_request (req : CreateTaskRequest) (x : ExtraData) (f : FIFOSet) :
    (wireStreams req x f).1 =
      { req with
        Stdin := if req.Stdin = "" then "" else f.Stdin
        Stdout := if req.Stdout = "" then "" else f.Stdout
        Stderr := if req.Stderr = "" then "" else f.Stderr } := by
  cases req with
  | mk id b r t i o e c pc op =>
    unfold wireStreams
    by_cases h1 : i = "" <;> by_cases h2 : o = "" <;> by_cases h3 : e = "" <;>
      simp [h1, h2, h3]

/-- C14: for a Create request that reaches the task manager, the one request
handed to `CreateTask` has the runc options of the envelope as its options, the
root path of the bundle directory as its bundle, no rootfs, and for each stream
the local FIFO when the path of the stream was not empty and the empty path
otherwise; its id, terminal flag, checkpoint and parent checkpoint are those of
the incoming request. When `CreateTask` succeeds `Create` returns its
response. -/
theorem Create_request_handed_over
    (ts : TaskService) (sys : System) (req : CreateTaskRequest) (x : ExtraData) (d : Drive)
    (f : FIFOSet)
    (hU : sys.UnmarshalAny req.Options = (x, none))
    (hB : sys.bundleCreate (bundleDirFor req.ID) = none)
    (hW : sys.ociConfigWrite (bundleDirFor req.ID) x.JsonSpec = none)
    (hD : ts.driveHandler.GetDrive (strings.TrimSpace x.DriveID) = (d, true))
    (hM : sys.MountRootfs (bundleDirFor req.ID) d.Path "ext4" [] = none)
    (hF : sys.NewFIFOSetInDir (bundleDirFor req.ID).RootPath req.ID req.Terminal
      = Except.ok f) :
    requestsHandedOver (ts.Create sys req).1 =
      [{ ID := req.ID,
         Bundle := (bundleDirFor req.ID).RootPath,
         Rootfs := [],
         Terminal := req.Terminal,
         Stdin := if req.Stdin = "" then "" else f.Stdin,
         Stdout := if req.Stdout = "" then "" else f.Stdout,
         Stderr := if req.Stderr = "" then "" else f.Stderr,
         Checkpoint := req.Checkpoint,
         ParentCheckpoint := req.ParentCheckpoint,
         Options := x.RuncOptions }] ∧
    (∀ resp, ts.taskManager.CreateTask
        { ID := req.ID,
          Bundle := (bundleDirFor req.ID).RootPath,
          Rootfs := [],
          Terminal := req.Terminal,
          Stdin := if req.Stdin = "" then "" else f.Stdin,
          Stdout := if req.Stdout = "" then "" else f.Stdout,
          Stderr := if req.Stderr = "" then "" else f.Stderr,
          Checkpoint := req.Checkpoint,
          ParentCheckpoint := req.ParentCheckpoint,
          Options := x.RuncOptions }
        ts.runcService (wireStreams (guestRequest req x) x f).2 = Except.ok resp →
      ts.Create sys req =
        (traceToMount req x d none ++
          [Effect.NewFIFOSetInDir (bundleDirFor req.ID).RootPath req.ID req.Terminal,
           Effect.CreateTask (wireStreams (guestRequest req x) x f).1
             (wireStreams (guestRequest req x) x f).2,
           Effect.log Level.Debug "create succeeded"],
         Except.ok resp)) := by
  have hU2 := unmarshalExtraData_of_ok sys req.Options x hU
  have hQ : (wireStreams (guestRequest req x) x f).1 =
      { ID := req.ID,
        Bundle := (bundleDirFor req.ID).RootPath,
        Rootfs := [],
        Terminal := req.Terminal,
        Stdin := if req.Stdin = "" then "" else f.Stdin,
        Stdout := if req.Stdout = "" then "" else f.Stdout,
        Stderr := if req.Stderr = "" then "" else f.Stderr,
        Checkpoint := req.Checkpoint,
        ParentCheckpoint := req.ParentCheckpoint,
        Options := x.RuncOptions } := by
    rw [wireStreams_request]
    rfl
  constructor
  · rcases hT : ts.taskManager.CreateTask (wireStreams (guestRequest req x) x f).1
        ts.runcService (wireStreams (guestRequest req x) x f).2 with e | resp
    · rw [Create_task_failed ts sys req x d f e hU2 hB hW hD hM hF hT, hQ]
      cases hR : sys.RemoveAll (bundleDirFor req.ID).RootPath <;>
        simp [traceToMount, deferredCleanup, hR, requestsHandedOver]
    · rw [Create_succeeded ts sys req x d f resp hU2 hB hW hD hM hF hT, hQ]
      simp [traceToMount, requestsHandedOver]
  · intro resp hT
    rw [← hQ] at hT
    exact Create_succeeded ts sys req x d f resp hU2 hB hW hD hM hF hT

/-- C14, at the request for task `t1`, which asks for stdout only: the request
handed over has the guest bundle path, no rootfs, the runc options of the
envelope and the stdout FIFO; stdin and stderr stay empty. -/
theorem Create_request_handed_over_witness :
    (Example.system Example.extraData none none none).NewFIFOSetInDir
        (bundleDirFor Example.request.ID).RootPath Example.request.ID Example.request.Terminal
      = Except.ok { Stdin := "/container/t1/t1-stdin", Stdout := "/container/t1/t1-stdout",
                    Stderr := "/container/t1/t1-stderr" } ∧
    requestsHandedOver ((Example.service none none).Create
        (Example.system Example.extraData none none none) Example.request).1 =
      [{ ID := "t1", Bundle := "/container/t1", Rootfs := [], Terminal := false,
         Stdin := "", Stdout := "/container/t1/t1-stdout", Stderr := "",
         Checkpoint := "", ParentCheckpoint := "",
         Options := some { TypeUrl := "runc.Options", Value := [1] } }] :=
  ⟨rfl, (Create_request_handed_over (Example.service none none)
    (Example.system Example.extraData none none none) Example.request Example.extraData
    { Path := "/dev/vdb" }
    { Stdin := "/container/t1/t1-stdin", Stdout := "/container/t1/t1-stdout",
      Stderr := "/container/t1/t1-stderr" } rfl rfl rfl rfl rfl rfl).1⟩

/-! ## Drive resolution before the mount -/

/-- The function `strings.TrimSpace` removes the white space around a text that
neither starts nor ends with white space, and gives that text. -/
theorem TrimSpace_padded (l core r : List Char)
    (hl : ∀ c ∈ l, unicode.IsSpace c = true) (hr : ∀ c ∈ r, unicode.IsSpace c = true)
    (hhead : ∀ c, core.head? = some c → unicode.IsSpace c = false)
    (hlast : ∀ c, core.getLast? = some c → unicode.IsSpace c = false) :
    strings.TrimSpace (String.mk (l ++ core ++ r)) = String.mk core := by
  unfold strings.TrimSpace
  congr 1
  show ((l ++ core ++ r).dropWhile unicode.IsSpace).rdropWhile unicode.IsSpace = core
  rw [List.append_assoc, List.dropWhile_append_of_pos hl]
  cases core with
  | nil =>
    have h0 : List.dropWhile unicode.IsSpace ([] ++ r) = [] := by
      rw [List.nil_append]
      exact List.dropWhile_eq_nil_iff.mpr hr
    rw [h0]
    rfl
  | cons c cs =>
    have hc : ¬ unicode.IsSpace c = true := by
      simp [hhead c rfl]
    rw [List.cons_append, List.dropWhile_cons_of_neg hc, ← List.cons_append]
    unfold List.rdropWhile
    rw [List.reverse_append]
    have hr2 : ∀ a ∈ r.reverse, unicode.IsSpace a = true := fun a ha =>
      hr a (List.mem_reverse.mp ha)
    rw [List.dropWhile_append_of_pos hr2]
    have hself : List.rdropWhile unicode.IsSpace (c :: cs) = c :: cs := by
      rw [List.rdropWhile_eq_self_iff]
      intro hne
      have hl2 := hlast ((c :: cs).getLast hne) (List.getLast?_eq_getLast _ hne)
      simp [hl2]
    exact hself

/-- C13: in every execution of `Create` a mount attempt comes after a drive
lookup; when the lookup of the trimmed drive id reports absence there is no
mount attempt; and every mount attempt is made after a lookup of the trimmed
drive id that found a drive, on the bundle directory of the task, with the
device path of that drive as source, `ext4` as filesystem type and no options.
Trimming removes the white space around the id, so ` d1 ` is looked up as
`d1`. -/
theorem Create_mounts_only_resolved_drive
    (ts : TaskService) (sys : System) (req : CreateTaskRequest) :
    mountsFollowLookup false (ts.Create sys req).1 = true ∧
    (∀ x, unmarshalExtraData sys req.Options = Except.ok x →
      (ts.driveHandler.GetDrive (strings.TrimSpace x.DriveID)).2 = false →
      mountAttempts (ts.Create sys req).1 = 0) ∧
    (∀ dir source fstype options err,
      Effect.MountRootfs dir source fstype options err ∈ (ts.Create sys req).1 →
      ∃ x d, unmarshalExtraData sys req.Options = Except.ok x ∧
        ts.driveHandler.GetDrive (strings.TrimSpace x.DriveID) = (d, true) ∧
        Effect.GetDrive (strings.TrimSpace x.DriveID) ∈ (ts.Create sys req).1 ∧
        dir = bundleDirFor req.ID ∧ source = d.Path ∧ fstype = "ext4" ∧ options = []) ∧
    (∀ l core r : List Char,
      (∀ c ∈ l, unicode.IsSpace c = true) → (∀ c ∈ r, unicode.IsSpace c = true) →
      (∀ c, core.head? = some c → unicode.IsSpace c = false) →
      (∀ c, core.getLast? = some c → unicode.IsSpace c = false) →
      strings.TrimSpace (String.mk (l ++ core ++ r)) = String.mk core) ∧
    strings.TrimSpace " d1 " = strings.TrimSpace "d1" := by
  have h := Create_run ts sys req
  generalize ts.Create sys req = run at h
  refine ⟨?_, ?_, ?_, TrimSpace_padded, by decide⟩
  · cases h <;>
      cases hR : sys.RemoveAll (bundleDirFor req.ID).RootPath <;>
      simp [traceToMount, deferredCleanup, hR, mountsFollowLookup]
  · intro x hx hno
    cases h <;>
      cases hR : sys.RemoveAll (bundleDirFor req.ID).RootPath <;>
      simp_all [traceToMount, deferredCleanup, mountAttempts]
  · intro dir source fstype options err hmem
    cases h <;>
      cases hR : sys.RemoveAll (bundleDirFor req.ID).RootPath <;>
      simp_all [traceToMount, deferredCleanup]

/-- C13, at a request whose drive id ` d9 ` is not registered: the trimmed id
`d9` is looked up, no drive is found, and no mount is attempted. -/
theorem Create_mounts_only_resolved_drive_witness :
    unmarshalExtraData
        (Example.system { Example.extraData with DriveID := " d9 " } none none none)
        Example.request.Options = Except.ok { Example.extraData with DriveID := " d9 " } ∧
    ((Example.service none none).driveHandler.GetDrive (strings.TrimSpace " d9 ")).2 = false ∧
    mountAttempts ((Example.service none none).Create
        (Example.system { Example.extraData with DriveID := " d9 " } none none none)
        Example.request).1 = 0 :=
  ⟨rfl, rfl,
    (Create_mounts_only_resolved_drive (Example.service none none)
      (Example.system { Example.extraData with DriveID := " d9 " } none none none)
      Example.request).2.1 { Example.extraData with DriveID := " d9 " } rfl rfl⟩

/-! ## The bundle directory of a task -/

/-- A text without a separator is a single path element. -/
theorem elements_of_no_separator (cs : List Char) (h : '/' ∉ cs) :
    filepath.elements cs = [cs] := by
  induction cs with
  | nil => rfl
  | cons c rest ih =>
    have hc : c ≠ '/' := fun hc => h (by simp [hc])
    have hrest : '/' ∉ rest := fun hr => h (List.mem_cons_of_mem _ hr)
    simp [filepath.elements, hc, ih hrest]

/-- Joining the container root and a task id that is a single path element
appends the id to the root, after a separator. -/
theorem Join_of_path_element (id : String) (h : isPathElement id) :
    filepath.Join [containerRootDir, id] = containerRootDir ++ "/" ++ id := by
  obtain ⟨hne, hsep, hdot, hdotdot⟩ := h
  rcases id with ⟨cs⟩
  have h1 : cs ≠ [] := fun hc => hne (by rw [hc])
  have h2 : cs ≠ ['.'] := fun hc => hdot (by rw [hc])
  have h3 : cs ≠ ['.', '.'] := fun hc => hdotdot (by rw [hc])
  have hsep2 : '/' ∉ cs := hsep
  have hjoin : filepath.Join [containerRootDir, ⟨cs⟩]
      = filepath.Clean (String.mk ("/container/".data ++ cs)) := by
    rfl
  rw [hjoin]
  unfold filepath.Clean
  have hnonempty : String.mk ("/container/".data ++ cs) ≠ "" := by
    intro hc
    have := congrArg String.data hc
    simp at this
  simp only [hnonempty, if_false]
  have hel : filepath.elements (['/', 'c', 'o', 'n', 't', 'a', 'i', 'n', 'e', 'r', '/'] ++ cs)
      = [[], ['c', 'o', 'n', 't', 'a', 'i', 'n', 'e', 'r'], cs] := by
    simp [filepath.elements, elements_of_no_separator cs hsep2]
  simp only [hel]
  simp [filepath.cleanStep, h1, h2, h3]
  apply String.ext
  simp [containerRootDir, List.intercalate]

/-- C12, refuted as stated: for the empty task id the bundle directory is the
container root itself; for the task id `..` it is `/`, outside the container
root; and the different task ids `a` and `a/` have the same bundle
directory. -/
theorem bundleDirFor_not_always_under_root :
    (bundleDirFor "").RootPath = containerRootDir ∧
    (bundleDirFor "..").RootPath = "/" ∧
    isStrictlyUnder containerRootDir (bundleDirFor "..").RootPath = false ∧
    "a" ≠ "a/" ∧ (bundleDirFor "a").RootPath = (bundleDirFor "a/").RootPath := by
  refine ⟨by decide, by decide, by decide, by decide, by decide⟩

/-- C12, amended: for a Create request whose task id is a single path element
(not empty, without a separator, neither `.` nor `..`), the bundle directory is
the container root followed by a separator and the id: a strict descendant of
the container root, not the root itself, and different from the bundle
directory of every other such id. It is the only directory `Create` creates,
and its root path is the only path `Create` removes. -/
theorem Create_bundle_directory_of_path_element
    (ts : TaskService) (sys : System) (req : CreateTaskRequest) (h : isPathElement req.ID) :
    (bundleDirFor req.ID).RootPath = containerRootDir ++ "/" ++ req.ID ∧
    isStrictlyUnder containerRootDir (bundleDirFor req.ID).RootPath = true ∧
    (bundleDirFor req.ID).RootPath ≠ containerRootDir ∧
    (∀ id, isPathElement id →
      (bundleDirFor id).RootPath = (bundleDirFor req.ID).RootPath → id = req.ID) ∧
    (∀ dir, Effect.bundleCreate dir ∈ (ts.Create sys req).1 → dir = bundleDirFor req.ID) ∧
    (∀ p ∈ removedPaths (ts.Create sys req).1, p = (bundleDirFor req.ID).RootPath) := by
  have hpath : (bundleDirFor req.ID).RootPath = containerRootDir ++ "/" ++ req.ID :=
    Join_of_path_element req.ID h
  have hne : req.ID.data ≠ [] := fun hc => h.1 (String.ext hc)
  have hrun := Create_run ts sys req
  generalize ts.Create sys req = run at hrun
  refine ⟨hpath, ?_, ?_, ?_, ?_, ?_⟩
  · have hlen : 0 < req.ID.length := List.length_pos.mpr hne
    rw [hpath]
    simp [isStrictlyUnder, containerRootDir, hlen]
  · rw [hpath]
    intro hc
    have := congrArg String.data hc
    simp [containerRootDir] at this
  · intro id hid heq
    have hpath2 : (bundleDirFor id).RootPath = containerRootDir ++ "/" ++ id :=
      Join_of_path_element id hid
    rw [hpath, hpath2] at heq
    have := congrArg String.data heq
    simp at this
    exact String.ext this
  · intro dir hmem
    cases hrun <;>
      cases hR : sys.RemoveAll (bundleDirFor req.ID).RootPath <;>
      simp_all [traceToMount, deferredCleanup]
  · intro p hmem
    cases hrun <;>
      cases hR : sys.RemoveAll (bundleDirFor req.ID).RootPath <;>
      simp_all [traceToMount, deferredCleanup, removedPaths]

/-- C12, at the request for task `t1`: its bundle directory is
`/container/t1`, a strict descendant of `/container`. -/
theorem Create_bundle_directory_of_path_element_witness :
    isPathElement Example.request.ID ∧
    (bundleDirFor Example.request.ID).RootPath = "/container/t1" ∧
    isStrictlyUnder containerRootDir (bundleDirFor Example.request.ID).RootPath = true :=
  ⟨⟨by decide, by decide, by decide, by decide⟩,
    (Create_bundle_directory_of_path_element (Example.service none none)
      (Example.system Example.extraData none none none) Example.request
      ⟨by decide, by decide, by decide, by decide⟩).1,
    (Create_bundle_directory_of_path_element (Example.service none none)
      (Example.system Example.extraData none none none) Example.request
      ⟨by decide, by decide, by decide, by decide⟩).2.1⟩

end Agent
